import Mathlib

/-!
Verification development for the Unity SerializedFile decoder
(`src/rust/src/unity/reader.rs` and `src/rust/src/unity/material.rs`).

The reader is shallowly embedded as a state-passing function over an
in-memory byte buffer.  Buffer cells model `u8` values: every read reduces
a cell modulo 256, which is the identity on genuine bytes, so the embedding
agrees with the Rust code on every real byte buffer.  Machine integers are
modelled as `Nat`/`Int` with explicit wrap-arounds where the Rust code
casts.  `f32` fields are kept as their raw 32-bit patterns (the decoder
never computes with them, it only stores them).  Rust panics are modelled
as a failure outcome distinct from the `AssetReaderError` results that the
code returns through `Result`.
-/

namespace Noclip

inductive Endianness where
  | big
  | little
deriving DecidableEq

/-- Error enum of `reader.rs` (`AssetReaderError`).  The payloads of
`IO` (renamed `ioError` here) and `InvalidVersion` are dropped: the code
never inspects them.  `UnsupportedUnityVersion` keeps no payload for the
same reason. -/
inductive AssetReaderError where
  | MissingType (typeId : Int)
  | ioError
  | UnsupportedFileVersion (v : Nat)
  | UnsupportedUnityVersion
  | UnsupportedFeature (msg : String)
  | InvalidVersion
  | DeserializationError (msg : String)
deriving DecidableEq

/-- Outcome of running a piece of the decoder: either a `Result::Err`
value that the Rust code returns (`err`), or a Rust panic (`panicked`),
which aborts instead of being returned to the caller. -/
inductive Failure where
  | err (e : AssetReaderError)
  | panicked (msg : String)
deriving DecidableEq

def Failure.isPanic : Failure → Bool
  | .err _ => false
  | .panicked _ => true

/-- The reader state of `AssetReader`: a cursor over an immutable byte
buffer plus the current endianness. -/
structure AssetReader where
  data : List Nat
  pos : Nat
  endianness : Endianness
deriving DecidableEq

def AssetReader.new (data : List Nat) : AssetReader :=
  { data := data, pos := 0, endianness := Endianness.big }

/-- The decoding monad: state passing over `AssetReader`, failing with a
`Failure`. -/
def M (α : Type) : Type := AssetReader → Except Failure (α × AssetReader)

def mpure {α : Type} (a : α) : M α := fun s => .ok (a, s)

def mbind {α β : Type} (x : M α) (f : α → M β) : M β := fun s =>
  match x s with
  | .ok (a, s1) => f a s1
  | .error e => .error e

def mthrow {α : Type} (e : Failure) : M α := fun _ => .error e

instance : Monad M where
  pure := @mpure
  bind := @mbind

/-- `Option::unwrap`-style lift: a `none` models a Rust panic. -/
def liftPanicOpt {α : Type} (o : Option α) (msg : String) : M α :=
  match o with
  | some a => mpure a
  | none => mthrow (.panicked msg)

def mreplicate {α : Type} : Nat → M α → M (List α)
  | 0, _ => mpure []
  | n + 1, x => mbind x fun a => mbind (mreplicate n x) fun as => mpure (a :: as)

/-! ### Primitive reads (reader.rs lines 129-251) -/

def getEndianness : M Endianness := fun s => .ok (s.endianness, s)

def set_endianness (e : Endianness) : M Unit := fun s =>
  .ok ((), { s with endianness := e })

def stream_position : M Nat := fun s => .ok (s.pos, s)

/-- `seek(SeekFrom::Start(n))`; an in-memory cursor accepts any target. -/
def seekStart (n : Nat) : M Nat := fun s => .ok (n, { s with pos := n })

/-- `seek(SeekFrom::Current(k))`; fails when the target would be negative. -/
def seekCurrent (k : Int) : M Nat := fun s =>
  if (s.pos : Int) + k < 0 then .error (.err .ioError)
  else .ok (((s.pos : Int) + k).toNat, { s with pos := ((s.pos : Int) + k).toNat })

/-- `align` (reader.rs 129-133): seek to `(idx + 3) & !3` computed on
`u64`.  The addition wraps at `2^64` (release semantics; a debug build
panics on that overflow), and the mask keeps the greatest multiple of 4
not exceeding the wrapped sum, so the seek target is
`((pos + 3) % 2^64) / 4 * 4`. -/
def align : M Unit := mbind stream_position fun idx =>
  mbind (seekStart ((idx + 3) % 18446744073709551616 / 4 * 4)) fun _ => mpure ()

/-- `read_bytes(n)` via `read_exact`: fails unless `n` bytes remain. -/
def read_bytes (n : Nat) : M (List Nat) := fun s =>
  if s.pos + n ≤ s.data.length then
    .ok ((((s.data.drop s.pos).take n).map (· % 256)), { s with pos := s.pos + n })
  else .error (.err .ioError)

def read_u8 : M Nat := do
  let bs ← read_bytes 1
  mpure (bs.getD 0 0)

def read_bool : M Bool := do
  let b ← read_u8
  mpure (b == 1)

/-! Endian assembly of byte groups, written with literal place values so
the arithmetic stays linear. -/

def u16be (b0 b1 : Nat) : Nat := b0 * 256 + b1
def u16le (b0 b1 : Nat) : Nat := b1 * 256 + b0

def u32be (b0 b1 b2 b3 : Nat) : Nat :=
  b0 * 16777216 + b1 * 65536 + b2 * 256 + b3
def u32le (b0 b1 b2 b3 : Nat) : Nat :=
  b3 * 16777216 + b2 * 65536 + b1 * 256 + b0

def u64be (b0 b1 b2 b3 b4 b5 b6 b7 : Nat) : Nat :=
  b0 * 72057594037927936 + b1 * 281474976710656 + b2 * 1099511627776 +
    b3 * 4294967296 + b4 * 16777216 + b5 * 65536 + b6 * 256 + b7
def u64le (b0 b1 b2 b3 b4 b5 b6 b7 : Nat) : Nat :=
  b7 * 72057594037927936 + b6 * 281474976710656 + b5 * 1099511627776 +
    b4 * 4294967296 + b3 * 16777216 + b2 * 65536 + b1 * 256 + b0

/-- Two's-complement reinterpretation of a `u16` value as `i16`. -/
def toSigned16 (v : Nat) : Int := if v < 32768 then (v : Int) else (v : Int) - 65536

/-- Two's-complement reinterpretation of a `u32` value as `i32`. -/
def toSigned32 (v : Nat) : Int :=
  if v < 2147483648 then (v : Int) else (v : Int) - 4294967296

/-- Two's-complement reinterpretation of a `u64` value as `i64`. -/
def toSigned64 (v : Nat) : Int :=
  if v < 9223372036854775808 then (v : Int) else (v : Int) - 18446744073709551616

/-- `x as i32` on an `i64` value: keep the low 32 bits, reinterpret signed. -/
def i32ofI64 (x : Int) : Int := toSigned32 (x % 4294967296).toNat

/-- `x as usize` on an `i32`/`i64` value, on a 64-bit `usize` target (the
configuration the repository's tests run under). -/
def usizeOfInt (x : Int) : Nat := (x % 18446744073709551616).toNat

/-- `n as i64` on a `usize` value (64-bit). -/
def i64OfUsize (n : Nat) : Int := toSigned64 (n % 18446744073709551616)

def read_u16 : M Nat := do
  let e ← getEndianness
  let bs ← read_bytes 2
  match e with
  | .big => mpure (u16be (bs.getD 0 0) (bs.getD 1 0))
  | .little => mpure (u16le (bs.getD 0 0) (bs.getD 1 0))

def read_i16 : M Int := do
  let v ← read_u16
  mpure (toSigned16 v)

def read_u32 : M Nat := do
  let e ← getEndianness
  let bs ← read_bytes 4
  match e with
  | .big => mpure (u32be (bs.getD 0 0) (bs.getD 1 0) (bs.getD 2 0) (bs.getD 3 0))
  | .little => mpure (u32le (bs.getD 0 0) (bs.getD 1 0) (bs.getD 2 0) (bs.getD 3 0))

def read_i32 : M Int := do
  let v ← read_u32
  mpure (toSigned32 v)

def read_u64 : M Nat := do
  let e ← getEndianness
  let bs ← read_bytes 8
  match e with
  | .big => mpure (u64be (bs.getD 0 0) (bs.getD 1 0) (bs.getD 2 0) (bs.getD 3 0)
      (bs.getD 4 0) (bs.getD 5 0) (bs.getD 6 0) (bs.getD 7 0))
  | .little => mpure (u64le (bs.getD 0 0) (bs.getD 1 0) (bs.getD 2 0) (bs.getD 3 0)
      (bs.getD 4 0) (bs.getD 5 0) (bs.getD 6 0) (bs.getD 7 0))

def read_i64 : M Int := do
  let v ← read_u64
  mpure (toSigned64 v)

/-- `read_f32` keeps the raw 32-bit pattern: the decoder only stores float
fields, it never computes with them. -/
def read_f32 : M Nat := read_u32

def read_u32_array : M (List Nat) := do
  let count ← read_u32
  mreplicate count read_u32

/-- Modelled from the spec: `read_u16_array` is called by `material.rs` but
defined in a file that is not under `src/`.  Spec 4.1: a `u32` length
prefix, then that many `u16` elements, with no trailing alignment. -/
def read_u16_array : M (List Nat) := do
  let count ← read_u32
  mreplicate count read_u16

def read_byte_array : M (List Nat) := do
  let count ← read_u32
  read_bytes count

/-- Bytes widened one-to-one into characters (no UTF-8 decoding). -/
def stringOfBytes (bs : List Nat) : String :=
  String.mk (bs.map Char.ofNat)

def read_char_array : M String := do
  let bytes ← read_byte_array
  let res := stringOfBytes bytes
  align
  mpure res

def read_null_terminated_string : M String := fun s =>
  let rest := (s.data.drop s.pos).map (· % 256)
  let pre := rest.takeWhile (fun b => b ≠ 0)
  if pre.length < rest.length then
    .ok (stringOfBytes pre, { s with pos := s.pos + pre.length + 1 })
  else .error (.err .ioError)

/-! ### Engine version tuples

`version.rs` is not under `src/`; the type, its total order and its parser
are modelled from the spec (spec 3, "Version tuple"). -/

/-- Modelled from the spec: suffix kinds of an engine version, ordered
`alpha < beta < final < patch < experimental < china` (`version.rs` is not
under `src/`). -/
inductive UnitySuffix where
  | alpha
  | beta
  | final
  | patch
  | experimental
  | china
deriving DecidableEq, BEq

def UnitySuffix.rank : UnitySuffix → Nat
  | .alpha => 0
  | .beta => 1
  | .final => 2
  | .patch => 3
  | .experimental => 4
  | .china => 5

/-- Modelled from the spec: `(major, minor, build, suffix_kind, suffix_num)`
with lexicographic total order; missing components default to `0` and
`final` (`version.rs` is not under `src/`). -/
structure UnityVersion where
  major : Nat := 0
  minor : Nat := 0
  build : Nat := 0
  suffix : UnitySuffix := UnitySuffix.final
  suffix_num : Nat := 0
deriving DecidableEq, BEq

/-- Lexicographic strict order over the five components. -/
def UnityVersion.lt (a b : UnityVersion) : Bool :=
  (a.major < b.major) ||
  (a.major == b.major &&
    ((a.minor < b.minor) ||
     (a.minor == b.minor &&
       ((a.build < b.build) ||
        (a.build == b.build &&
          ((a.suffix.rank < b.suffix.rank) ||
           (a.suffix.rank == b.suffix.rank && a.suffix_num < b.suffix_num)))))))

def UnityVersion.le (a b : UnityVersion) : Bool :=
  UnityVersion.lt a b || a == b

/-- Digits-only prefix parse helper. -/
def parseDigits (cs : List Char) : Option Nat :=
  if cs.isEmpty then none
  else if cs.all Char.isDigit then
    some (cs.foldl (fun acc c => acc * 10 + (c.toNat - 48)) 0)
  else none

def suffixOfChar (c : Char) : Option UnitySuffix :=
  if c = 'a' then some UnitySuffix.alpha
  else if c = 'b' then some UnitySuffix.beta
  else if c = 'f' then some UnitySuffix.final
  else if c = 'p' then some UnitySuffix.patch
  else if c = 'x' then some UnitySuffix.experimental
  else if c = 'c' then some UnitySuffix.china
  else none

/-- Split a character list on `'.'` (structural replacement for string
splitting, so that decoding reduces inside the kernel). -/
def splitOnDot : List Char → List (List Char)
  | [] => [[]]
  | c :: rest =>
    if c = '.' then [] :: splitOnDot rest
    else
      match splitOnDot rest with
      | g :: gs => (c :: g) :: gs
      | [] => [[c]]

/-- Modelled from the spec: parse the third component `bSuffixN` of a
version string such as `17f1`; a missing suffix defaults to `final`/`0`. -/
def parseBuildSuffix (cs : List Char) : Option (Nat × UnitySuffix × Nat) :=
  let ds := cs.takeWhile Char.isDigit
  let rest := cs.drop ds.length
  match parseDigits ds with
  | none => none
  | some b =>
    match rest with
    | [] => some (b, UnitySuffix.final, 0)
    | c :: more =>
      match suffixOfChar c with
      | none => none
      | some k =>
        match more with
        | [] => some (b, k, 0)
        | _ =>
          match parseDigits more with
          | none => none
          | some n => some (b, k, n)

/-- Modelled from the spec: `UnityVersion::try_from` on strings like
`"2019.2.17f1"`; missing components default to `0` and `final`
(`version.rs` is not under `src/`). -/
def UnityVersion.parse (str : String) : Option UnityVersion :=
  match splitOnDot str.data with
  | [a] =>
    match parseDigits a with
    | some ma => some { major := ma }
    | none => none
  | [a, b] =>
    match parseDigits a, parseDigits b with
    | some ma, some mi => some { major := ma, minor := mi }
    | _, _ => none
  | [a, b, c] =>
    match parseDigits a, parseDigits b, parseBuildSuffix c with
    | some ma, some mi, some (bu, k, n) =>
      some { major := ma, minor := mi, build := bu, suffix := k, suffix_num := n }
    | _, _, _ => none
  | _ => none

/-! ### Asset data model

The structures of `asset.rs` are not under `src/`; their fields are
modelled from the spec (spec 3) and from how `reader.rs` constructs them. -/

/-- Modelled from the spec: serialized type record (spec 3,
"SerializedType"; `asset.rs` is not under `src/`).  The `type_tree`
payload is always `none` in `reader.rs` (`type_tree: None`). -/
structure SerializedType where
  class_id : Int
  is_stripped_type : Bool
  script_type_index : Int
  script_id : List Nat
  old_type_hash : List Nat
  type_dependencies : List Nat
  type_tree : Option Unit
  class_name : String
  name_space : String
  asm_name : String
deriving DecidableEq

/-- Modelled from the spec: asset header (spec 3, "Asset header";
`asset.rs` is not under `src/`).  `metadata_size`, `file_size` and
`data_offset` are `usize` fields, `version` a `u8`. -/
structure AssetHeader where
  metadata_size : Nat
  file_size : Nat
  version : Nat
  data_offset : Nat
  endianness : Endianness
deriving DecidableEq

/-- Modelled from the spec: asset metadata (spec 3, "Asset metadata";
`asset.rs` is not under `src/`). -/
structure AssetMetadata where
  unity_version : UnityVersion
  target_platform : Nat
  enable_type_tree : Bool
  types : List SerializedType
deriving DecidableEq

/-- Modelled from the spec: object descriptor (spec 3, "Object
descriptor"; `asset.rs` is not under `src/`). -/
structure UnityObject where
  path_id : Int
  byte_start : Int
  byte_size : Nat
  type_id : Int
  serialized_type : SerializedType
  class_id : Int
deriving DecidableEq

/-- Modelled from the spec: script type reference (spec 3; `asset.rs` is
not under `src/`). -/
structure ScriptType where
  local_identifier_in_file : Int
  local_serialized_file_index : Int
deriving DecidableEq

/-- Modelled from the spec: external reference (spec 3; `asset.rs` is not
under `src/`). -/
structure External where
  guid : List Nat
  ext_type : Int
  path_name : String
deriving DecidableEq

/-- Modelled from the spec: the decoded container directory (spec 3 and
spec 4.4; `asset.rs` is not under `src/`). -/
structure AssetInfo where
  header : AssetHeader
  metadata : AssetMetadata
  objects : List UnityObject
  script_types : List ScriptType
  externals : List External
  ref_types : List SerializedType
  user_information : String
deriving DecidableEq

/-- Field layout of `TypeTreeNode` (reader.rs lines 72-85). -/
structure TypeTreeNode where
  typ : Option String
  name : Option String
  byte_size : Int
  index : Option Int
  version : Int
  meta_flag : Option Int
  level : Nat
  type_str_offset : Option Nat
  name_str_offset : Option Nat
  ref_type_hash : Option Nat
  type_flags : Int
  variable_count : Option Int
deriving DecidableEq

/-! ### Container reader (reader.rs lines 96-531) -/

def supportedVersions : List Nat := [17, 18, 19, 20, 21, 22]

/-- `read_header` after the version check (reader.rs lines 260-287).  The
sequence of reads is unchanged; the split at the version check names the
continuation so that theorems can speak about "decoding proceeds". -/
def read_header_rest (metadata_size0 : Nat) (file_size0 : Int) (version : Nat) :
    M AssetHeader := do
  let data_offset0 ← read_u32
  let _ ← (if version < 9 then
      mbind (seekStart (usizeOfInt file_size0 - metadata_size0)) fun _ => mpure ()
    else mpure ())
  let eb ← read_u8
  let endianness := match eb with
    | 0 => Endianness.little
    | _ => Endianness.big
  let _ ← (if version ≥ 9 then mbind (seekCurrent 3) fun _ => mpure () else mpure ())
  if version ≥ 22 then
    let metadata_size ← read_u32
    let file_size ← read_i64
    let data_offset ← read_i64
    let _ ← read_i64
    mpure { metadata_size := metadata_size, file_size := usizeOfInt file_size,
            version := version % 256, data_offset := usizeOfInt data_offset,
            endianness := endianness }
  else
    mpure { metadata_size := metadata_size0, file_size := usizeOfInt file_size0,
            version := version % 256, data_offset := usizeOfInt (Int.ofNat data_offset0),
            endianness := endianness }

/-- `read_header` (reader.rs lines 253-288). -/
def read_header : M AssetHeader := do
  let metadata_size ← read_u32
  let file_size0 ← read_u32
  let version ← read_u32
  if supportedVersions.contains version then
    read_header_rest metadata_size (Int.ofNat file_size0) version
  else mthrow (.err (.UnsupportedFileVersion version))

/-- Recursive (legacy) type-tree loop (reader.rs lines 377-418).  The
stack and the emitted node mirror the source, including pushing
`(level_count.0, children_count)` unchanged on line 414.  The loop is
driven by fuel; each successful iteration consumes at least one byte of
the finite buffer, so `data.length + 1` iterations are never exhausted. -/
def read_type_tree_go (version : Nat) :
    Nat → List (Nat × Int) → List TypeTreeNode → M (List TypeTreeNode)
  | 0, _, _ => mthrow (.err .ioError)
  | _ + 1, [], acc => mpure acc
  | fuel + 1, (level, count) :: rest, acc => do
    let stack1 := if count > 1 then (level, count - 1) :: rest else rest
    let typ ← read_null_terminated_string
    let name ← read_null_terminated_string
    let byte_size ← read_i32
    let variable_count ←
      (if version == 2 then mbind read_i32 fun v => mpure (some v)
       else mpure none)
    let index ←
      (if version != 3 then mbind read_i32 fun v => mpure (some v)
       else mpure none)
    let type_flags ← read_i32
    let node_version ← read_i32
    let meta_flag ←
      (if version != 3 then mbind read_i32 fun v => mpure (some v)
       else mpure none)
    let node : TypeTreeNode :=
      { level := level, typ := some typ, name := some name, byte_size := byte_size,
        variable_count := variable_count, index := index, type_flags := type_flags,
        version := node_version, meta_flag := meta_flag, type_str_offset := none,
        name_str_offset := none, ref_type_hash := none }
    let children_count ← read_i32
    let stack2 := if children_count > 0 then (level, children_count) :: stack1 else stack1
    read_type_tree_go version fuel stack2 (acc ++ [node])

def read_type_tree (version : Nat) : M (List TypeTreeNode) := fun s =>
  read_type_tree_go version (s.data.length + 1) [(0, 1)] [] s

/-- One node of the blob type-tree encoding (reader.rs lines 424-442). -/
def read_blob_node (version : Nat) : M TypeTreeNode := do
  let ver ← read_i16
  let level ← read_u8
  let type_flags ← read_u8
  let type_str_offset ← read_u32
  let name_str_offset ← read_u32
  let byte_size ← read_i32
  let index ← read_i32
  let meta_flag ← read_i32
  let ref_type_hash ←
    if version ≥ 19 then do
      let v ← read_u64
      mpure (some v)
    else mpure none
  mpure { version := ver, level := level, type_flags := Int.ofNat type_flags,
          type_str_offset := some type_str_offset, name_str_offset := some name_str_offset,
          byte_size := byte_size, index := some index, meta_flag := some meta_flag,
          ref_type_hash := ref_type_hash, name := none, typ := none,
          variable_count := none }

/-- Blob type-tree (reader.rs lines 420-448).  `with_capacity` and the
`read_bytes` length argument call `try_into().unwrap()` on `i32` values,
which panics when they are negative. -/
def read_type_tree_blob (version : Nat) : M (List TypeTreeNode × List Nat) := do
  let number_of_nodes ← read_i32
  let string_buffer_size ← read_i32
  if number_of_nodes < 0 then
    mthrow (.panicked "with_capacity on negative node count")
  else
    let type_tree ← mreplicate number_of_nodes.toNat (read_blob_node version)
    if string_buffer_size < 0 then
      mthrow (.panicked "read_bytes on negative string buffer size")
    else do
      let buf ← read_bytes string_buffer_size.toNat
      mpure (type_tree, buf)

/-- `read_unity_type` (reader.rs lines 318-375). -/
def read_unity_type (is_ref_type : Bool) (enable_type_tree : Bool) (version : Nat) :
    M SerializedType := do
  let class_id ← read_i32
  let is_stripped_type ← (if version ≥ 16 then read_bool else mpure false)
  let script_type_index ← (if version ≥ 17 then read_i16 else mpure (-1 : Int))
  let script_id ←
    (if version ≥ 13 ∧ ((is_ref_type = true ∧ script_type_index ≥ 0) ∨
        class_id < 0 ∨ class_id = 114) then
      read_bytes 16
    else mpure [])
  let old_type_hash ← (if version ≥ 13 then read_bytes 16 else mpure [])
  if enable_type_tree then do
    let _ ←
      if version ≥ 12 ∨ version = 10 then do
        let _ ← read_type_tree_blob version
        mpure ()
      else do
        let _ ← read_type_tree version
        mpure ()
    if version ≥ 21 then
      if is_ref_type then do
        let class_name ← read_null_terminated_string
        let name_space ← read_null_terminated_string
        let asm_name ← read_null_terminated_string
        mpure { class_id := class_id, is_stripped_type := is_stripped_type,
                script_type_index := script_type_index, script_id := script_id,
                old_type_hash := old_type_hash, type_dependencies := [],
                type_tree := none, class_name := class_name,
                name_space := name_space, asm_name := asm_name }
      else do
        let type_dependencies ← read_u32_array
        mpure { class_id := class_id, is_stripped_type := is_stripped_type,
                script_type_index := script_type_index, script_id := script_id,
                old_type_hash := old_type_hash, type_dependencies := type_dependencies,
                type_tree := none, class_name := "", name_space := "", asm_name := "" }
    else
      mpure { class_id := class_id, is_stripped_type := is_stripped_type,
              script_type_index := script_type_index, script_id := script_id,
              old_type_hash := old_type_hash, type_dependencies := [],
              type_tree := none, class_name := "", name_space := "", asm_name := "" }
  else
    mpure { class_id := class_id, is_stripped_type := is_stripped_type,
            script_type_index := script_type_index, script_id := script_id,
            old_type_hash := old_type_hash, type_dependencies := [],
            type_tree := none, class_name := "", name_space := "", asm_name := "" }

/-- `read_metadata` (reader.rs lines 290-316). -/
def read_metadata (version : Nat) : M AssetMetadata := do
  let vstr ← (if version ≥ 7 then read_null_terminated_string else mpure "2.5.0f5")
  let unity_version ←
    (match UnityVersion.parse vstr with
    | some v => mpure v
    | none => mthrow (.err .InvalidVersion))
  let target_platform ← (if version ≥ 8 then read_u32 else mpure 3716)
  let enable_type_tree ← (if version ≥ 13 then read_bool else mpure true)
  let type_count ← read_u32
  let types ← mreplicate type_count (read_unity_type false enable_type_tree version)
  mpure { unity_version := unity_version, target_platform := target_platform,
          enable_type_tree := enable_type_tree, types := types }

/-- The aligned record reads of `read_object` before the type lookup
(reader.rs lines 464-472), returning
`(path_id, raw byte offset, byte_size, type_id)`. -/
def read_object_fields (hdr : AssetHeader) : M (Int × Int × Nat × Int) := do
  align
  let p ← read_i64
  let path_id := i32ofI64 p
  let bs0 ←
    (match hdr.version with
    | 22 => read_i64
    | _ => mbind read_u32 fun v => mpure (Int.ofNat v))
  let byte_size ← read_u32
  let type_id ← read_i32
  mpure (path_id, bs0, byte_size, type_id)

/-- `read_object` (reader.rs lines 463-486). -/
def read_object (hdr : AssetHeader) (metadata : AssetMetadata) : M UnityObject := do
  let (path_id, bs0, byte_size, type_id) ← read_object_fields hdr
  let byte_start := bs0 + i64OfUsize hdr.data_offset
  match metadata.types.get? (usizeOfInt type_id) with
  | some serialized_type =>
    mpure { path_id := path_id, byte_start := byte_start, byte_size := byte_size,
            type_id := type_id, serialized_type := serialized_type,
            class_id := serialized_type.class_id }
  | none => mthrow (.err (.MissingType type_id))

/-- `read_objects` (reader.rs lines 450-461). -/
def read_objects (hdr : AssetHeader) (metadata : AssetMetadata) :
    M (List UnityObject) := do
  let n_objects ← read_i32
  mreplicate n_objects.toNat (read_object hdr metadata)

/-- `read_script_types` (reader.rs lines 488-501). -/
def read_script_types : M (List ScriptType) := do
  let n ← read_i32
  mreplicate n.toNat (do
    let local_serialized_file_index ← read_i32
    align
    let lif ← read_i64
    mpure { local_identifier_in_file := i32ofI64 lif,
            local_serialized_file_index := local_serialized_file_index : ScriptType })

/-- `read_externals` (reader.rs lines 503-518). -/
def read_externals : M (List External) := do
  let n ← read_i32
  mreplicate n.toNat (do
    let _empty ← read_null_terminated_string
    let guid ← read_bytes 16
    let ext_type ← read_i32
    let path_name ← read_null_terminated_string
    mpure { guid := guid, ext_type := ext_type, path_name := path_name : External })

/-- `read_ref_types` (reader.rs lines 520-531). -/
def read_ref_types (metadata : AssetMetadata) (version : Nat) :
    M (List SerializedType) := do
  let n ← read_i32
  mreplicate n.toNat (read_unity_type true metadata.enable_type_tree version)

/-- The body of `read_asset_info` after the endianness has been installed
(reader.rs lines 99-125). -/
def read_asset_info_body (header : AssetHeader) : M AssetInfo := do
  let metadata ← read_metadata header.version
  let objects ← read_objects header metadata
  let script_types ← (if header.version ≥ 11 then read_script_types else mpure [])
  let externals ← read_externals
  let ref_types ←
    (if header.version ≥ 20 then read_ref_types metadata header.version else mpure [])
  let user_information ←
    (if header.version ≥ 5 then read_null_terminated_string else mpure "")
  mpure { header := header, metadata := metadata, objects := objects,
          script_types := script_types, externals := externals,
          ref_types := ref_types, user_information := user_information }

/-- `read_asset_info` (reader.rs lines 96-126). -/
def read_asset_info : M AssetInfo := do
  let header ← read_header
  set_endianness header.endianness
  read_asset_info_body header

/-! ### Decode framework and ordered map (reader.rs lines 46-64, asset.rs) -/

/-- The `Deserialize::deserialize_array` default (reader.rs lines 51-63):
`i32` count, `count` sequential item decodes, then `align`.  The element
decoder is passed as a function, standing for any `Self::deserialize`. -/
def deserialize_array {α : Type} (d : M α) : M (List α) := do
  let n ← read_i32
  let result ← mreplicate n.toNat d
  align
  mpure result

/-- Modelled from the spec: the ordered map `Map<K, V>` of `asset.rs`
(not under `src/`): two parallel sequences `keys` and `vals` (spec 3,
"Ordered map"). -/
structure OMap (κ ν : Type) where
  keys : List κ
  vals : List ν
deriving DecidableEq

/-- Modelled from the spec: linear lookup by key equality (spec 4.3). -/
def OMap.find {κ ν : Type} [BEq κ] : OMap κ ν → κ → Option ν
  | m, k =>
    let rec go : List κ → List ν → Option ν
      | k2 :: ks, v :: vs => if k2 == k then some v else go ks vs
      | _, _ => none
    go m.keys m.vals

/-- Modelled from the spec: `OMap::decode` reads an `i32` count, then
`count` pairs `(K, V)` in file order (spec 4.3); no trailing alignment. -/
def OMap.deserialize {κ ν : Type} (dk : M κ) (dv : M ν) : M (OMap κ ν) := do
  let n ← read_i32
  let pairs ← mreplicate n.toNat (do
    let k ← dk
    let v ← dv
    mpure (k, v))
  mpure { keys := pairs.map Prod.fst, vals := pairs.map Prod.snd }

/-- Modelled from the spec: `String::deserialize` of `asset.rs` (not under
`src/`): strings decode as char arrays (spec 4.5). -/
def deserializeString : M String := read_char_array

/-- Modelled from the spec: `PPtr` of `asset.rs` (not under `src/`):
`(file_id: i32, path_id: i64)` (spec 3). -/
structure PPtr where
  file_id : Int
  path_id : Int
deriving DecidableEq

/-- Modelled from the spec: `PPtr::deserialize` reads the `i32` file id
then the `i64` path id (spec 3; `asset.rs` is not under `src/`). -/
def PPtr.deserialize (_asset : AssetInfo) : M PPtr := do
  let file_id ← read_i32
  let path_id ← read_i64
  mpure { file_id := file_id, path_id := path_id }

/-- Modelled from the spec: `Vec2f` of `mesh.rs` (not under `src/`): a
pair of `f32` (spec 3, "TexEnv"), kept as raw bit patterns. -/
structure Vec2f where
  x : Nat
  y : Nat
deriving DecidableEq

def Vec2f.deserialize (_asset : AssetInfo) : M Vec2f := do
  let x ← read_f32
  let y ← read_f32
  mpure { x := x, y := y }

/-! ### Material decoder (material.rs lines 7-165) -/

structure ColorRGBAf where
  r : Nat
  g : Nat
  b : Nat
  a : Nat
deriving DecidableEq

def ColorRGBAf.deserialize (_asset : AssetInfo) : M ColorRGBAf := do
  let r ← read_f32
  let g ← read_f32
  let b ← read_f32
  let a ← read_f32
  mpure { r := r, g := g, b := b, a := a }

structure UnityTexEnv where
  texture : PPtr
  scale : Vec2f
  offset : Vec2f
deriving DecidableEq

def UnityTexEnv.deserialize (asset : AssetInfo) : M UnityTexEnv := do
  let texture ← PPtr.deserialize asset
  let scale ← Vec2f.deserialize asset
  let offset ← Vec2f.deserialize asset
  mpure { texture := texture, offset := offset, scale := scale }

structure UnityPropertySheet where
  tex_envs : OMap String UnityTexEnv
  floats : OMap String Nat
  colors : OMap String ColorRGBAf
deriving DecidableEq

/-- `get_tex_env_count` (material.rs lines 108-110). -/
def UnityPropertySheet.get_tex_env_count (s : UnityPropertySheet) : Nat :=
  s.tex_envs.keys.length

/-- `get_tex_env` (material.rs lines 116-118): `Some(self.tex_envs.vals[idx].clone())`.
The indexing operator panics when `idx` is out of bounds; the outer
`Option` of the result models that panic (`none`), the inner `Option` is
the function's declared return type. -/
def UnityPropertySheet.get_tex_env (s : UnityPropertySheet) (idx : Nat) :
    Option (Option UnityTexEnv) :=
  match s.tex_envs.vals.get? idx with
  | some t => some (some t)
  | none => none

def UnityPropertySheet.deserialize (asset : AssetInfo) : M UnityPropertySheet := do
  let tex_envs ← OMap.deserialize deserializeString (UnityTexEnv.deserialize asset)
  let floats ← OMap.deserialize deserializeString read_f32
  let colors ← OMap.deserialize deserializeString (ColorRGBAf.deserialize asset)
  mpure { tex_envs := tex_envs, floats := floats, colors := colors }

structure UnityMaterial where
  name : String
  shader : PPtr
  keywords : String
  saved_properties : UnityPropertySheet
deriving DecidableEq

/-- `UnityMaterial::deserialize` (material.rs lines 18-43). -/
def UnityMaterial.deserialize (asset : AssetInfo) : M UnityMaterial := do
  let name ← read_char_array
  let shader ← PPtr.deserialize asset
  let keywords ← read_char_array
  let _lightmap_flags ← read_u32
  let _enable_instancing_variants ← read_bool
  let _double_sided_gi ← read_bool
  align
  let _custom_render_queue ← read_i32
  let _string_tag_map ← OMap.deserialize deserializeString deserializeString
  let _disabled_shader_passes ← deserialize_array deserializeString
  let saved_properties ← UnityPropertySheet.deserialize asset
  mpure { name := name, shader := shader, keywords := keywords,
          saved_properties := saved_properties }

/-- Debug rendering of an error, standing for `format!` on the Rust enum. -/
def renderError : AssetReaderError → String
  | .MissingType t => "MissingType " ++ toString t
  | .ioError => "IO"
  | .UnsupportedFileVersion v => "UnsupportedFileVersion " ++ toString v
  | .UnsupportedUnityVersion => "UnsupportedUnityVersion"
  | .UnsupportedFeature m => "UnsupportedFeature " ++ m
  | .InvalidVersion => "InvalidVersion"
  | .DeserializationError m => "DeserializationError " ++ m

/-- Outcome of a boundary `from_bytes` call: the Rust function returns
`Result<T, String>`, and a panic aborts instead of returning. -/
inductive RunResult (α : Type) where
  | ok (a : α)
  | failed (msg : String)
  | panicked (msg : String)
deriving DecidableEq

/-- `UnityMaterial::from_bytes` (material.rs lines 47-55). -/
def UnityMaterial.from_bytes (data : List Nat) (asset : AssetInfo) :
    RunResult UnityMaterial :=
  let reader := AssetReader.new data
  match UnityMaterial.deserialize asset { reader with endianness := asset.header.endianness } with
  | .ok (m, _) => .ok m
  | .error (.err e) => .failed (renderError e)
  | .error (.panicked m) => .panicked m

/-! ### Shader decoder (material.rs lines 167-1177) -/

structure UnityShaderSerializedTextureProperty where
  name : String
  dimension : Nat
deriving DecidableEq

def UnityShaderSerializedTextureProperty.deserialize (_asset : AssetInfo) :
    M UnityShaderSerializedTextureProperty := do
  let name ← read_char_array
  let dimension ← read_u32
  mpure { name := name, dimension := dimension }

structure UnityShaderSerializedProperty where
  name : String
  description : String
  attributes : List String
  prop_type : Nat
  flags : Nat
  def_value : List Nat
  def_texture : UnityShaderSerializedTextureProperty
deriving DecidableEq

def UnityShaderSerializedProperty.deserialize (asset : AssetInfo) :
    M UnityShaderSerializedProperty := do
  let name ← read_char_array
  let description ← read_char_array
  let attributes ← deserialize_array deserializeString
  let prop_type ← read_u32
  let flags ← read_u32
  let v0 ← read_f32
  let v1 ← read_f32
  let v2 ← read_f32
  let v3 ← read_f32
  let def_texture ← UnityShaderSerializedTextureProperty.deserialize asset
  mpure { name := name, description := description, attributes := attributes,
          prop_type := prop_type, flags := flags, def_value := [v0, v1, v2, v3],
          def_texture := def_texture }

inductive UnityShaderPassType where
  | Normal
  | Use
  | Grab
deriving DecidableEq

structure UnityShaderSerializedShaderFloatValue where
  val : Nat
  name : String
deriving DecidableEq

def UnityShaderSerializedShaderFloatValue.deserialize (_asset : AssetInfo) :
    M UnityShaderSerializedShaderFloatValue := do
  let val ← read_f32
  let name ← read_char_array
  mpure { val := val, name := name }

structure UnityShaderSerializedShaderRTBlendState where
  src_blend : UnityShaderSerializedShaderFloatValue
  dest_blend : UnityShaderSerializedShaderFloatValue
  src_blend_alpha : UnityShaderSerializedShaderFloatValue
  dest_blend_alpha : UnityShaderSerializedShaderFloatValue
  blend_op : UnityShaderSerializedShaderFloatValue
  blend_op_alpha : UnityShaderSerializedShaderFloatValue
  col_mask : UnityShaderSerializedShaderFloatValue
deriving DecidableEq

def UnityShaderSerializedShaderRTBlendState.deserialize (asset : AssetInfo) :
    M UnityShaderSerializedShaderRTBlendState := do
  let src_blend ← UnityShaderSerializedShaderFloatValue.deserialize asset
  let dest_blend ← UnityShaderSerializedShaderFloatValue.deserialize asset
  let src_blend_alpha ← UnityShaderSerializedShaderFloatValue.deserialize asset
  let dest_blend_alpha ← UnityShaderSerializedShaderFloatValue.deserialize asset
  let blend_op ← UnityShaderSerializedShaderFloatValue.deserialize asset
  let blend_op_alpha ← UnityShaderSerializedShaderFloatValue.deserialize asset
  let col_mask ← UnityShaderSerializedShaderFloatValue.deserialize asset
  mpure { src_blend := src_blend, dest_blend := dest_blend,
          src_blend_alpha := src_blend_alpha, dest_blend_alpha := dest_blend_alpha,
          blend_op := blend_op, blend_op_alpha := blend_op_alpha, col_mask := col_mask }

structure UnityShaderSerializedStencilOp where
  pass : UnityShaderSerializedShaderFloatValue
  fail : UnityShaderSerializedShaderFloatValue
  z_fail : UnityShaderSerializedShaderFloatValue
  comp : UnityShaderSerializedShaderFloatValue
deriving DecidableEq

def UnityShaderSerializedStencilOp.deserialize (asset : AssetInfo) :
    M UnityShaderSerializedStencilOp := do
  let pass ← UnityShaderSerializedShaderFloatValue.deserialize asset
  let fail ← UnityShaderSerializedShaderFloatValue.deserialize asset
  let z_fail ← UnityShaderSerializedShaderFloatValue.deserialize asset
  let comp ← UnityShaderSerializedShaderFloatValue.deserialize asset
  mpure { pass := pass, fail := fail, z_fail := z_fail, comp := comp }

structure UnityShaderSerializedShaderVectorValue where
  x : UnityShaderSerializedShaderFloatValue
  y : UnityShaderSerializedShaderFloatValue
  z : UnityShaderSerializedShaderFloatValue
  w : UnityShaderSerializedShaderFloatValue
  name : String
deriving DecidableEq

def UnityShaderSerializedShaderVectorValue.deserialize (asset : AssetInfo) :
    M UnityShaderSerializedShaderVectorValue := do
  let x ← UnityShaderSerializedShaderFloatValue.deserialize asset
  let y ← UnityShaderSerializedShaderFloatValue.deserialize asset
  let z ← UnityShaderSerializedShaderFloatValue.deserialize asset
  let w ← UnityShaderSerializedShaderFloatValue.deserialize asset
  let name ← read_char_array
  mpure { x := x, y := y, z := z, w := w, name := name }

inductive UnityShaderFogMode where
  | Unknown
  | Disabled
  | Linear
  | Exp
  | Exp2
deriving DecidableEq

/-- `UnityShaderSerializedShaderState::get_fog_mode` (material.rs lines
355-364): a pure function that panics (`none`) on any discriminant
outside `{-1, 0, 1, 2, 3}`. -/
def get_fog_mode (value : Int) : Option UnityShaderFogMode :=
  if value = -1 then some UnityShaderFogMode.Unknown
  else if value = 0 then some UnityShaderFogMode.Disabled
  else if value = 1 then some UnityShaderFogMode.Linear
  else if value = 2 then some UnityShaderFogMode.Exp
  else if value = 3 then some UnityShaderFogMode.Exp2
  else none

structure UnityShaderSerializedShaderState where
  name : String
  rt_blend : List UnityShaderSerializedShaderRTBlendState
  rt_separate_blend : Bool
  z_clip : Option UnityShaderSerializedShaderFloatValue
  z_test : UnityShaderSerializedShaderFloatValue
  z_write : UnityShaderSerializedShaderFloatValue
  culling : UnityShaderSerializedShaderFloatValue
  conservative : Option UnityShaderSerializedShaderFloatValue
  offset_factor : UnityShaderSerializedShaderFloatValue
  offset_units : UnityShaderSerializedShaderFloatValue
  alpha_to_mask : UnityShaderSerializedShaderFloatValue
  stencil_op : UnityShaderSerializedStencilOp
  stencil_op_front : UnityShaderSerializedStencilOp
  stencil_op_back : UnityShaderSerializedStencilOp
  stencil_read_mask : UnityShaderSerializedShaderFloatValue
  stencil_write_mask : UnityShaderSerializedShaderFloatValue
  stencil_ref : UnityShaderSerializedShaderFloatValue
  fog_start : UnityShaderSerializedShaderFloatValue
  fog_end : UnityShaderSerializedShaderFloatValue
  fog_density : UnityShaderSerializedShaderFloatValue
  fog_color : UnityShaderSerializedShaderVectorValue
  fog_mode : UnityShaderFogMode
  gpu_program_id : Int
  tags : OMap String String
  lod : Int
  lighting : Bool
deriving DecidableEq

def UnityShaderSerializedShaderState.deserialize (asset : AssetInfo) :
    M UnityShaderSerializedShaderState := do
  let uv := asset.metadata.unity_version
  let name ← read_char_array
  let rt_blend ← mreplicate 8 (UnityShaderSerializedShaderRTBlendState.deserialize asset)
  let rt_separate_blend ← read_bool
  align
  let z_clip ←
    if UnityVersion.le { major := 2017, minor := 2 } uv then do
      let v ← UnityShaderSerializedShaderFloatValue.deserialize asset
      mpure (some v)
    else mpure none
  let z_test ← UnityShaderSerializedShaderFloatValue.deserialize asset
  let z_write ← UnityShaderSerializedShaderFloatValue.deserialize asset
  let culling ← UnityShaderSerializedShaderFloatValue.deserialize asset
  let conservative ←
    if UnityVersion.le { major := 2020 } uv then do
      let v ← UnityShaderSerializedShaderFloatValue.deserialize asset
      mpure (some v)
    else mpure none
  let offset_factor ← UnityShaderSerializedShaderFloatValue.deserialize asset
  let offset_units ← UnityShaderSerializedShaderFloatValue.deserialize asset
  let alpha_to_mask ← UnityShaderSerializedShaderFloatValue.deserialize asset
  let stencil_op ← UnityShaderSerializedStencilOp.deserialize asset
  let stencil_op_front ← UnityShaderSerializedStencilOp.deserialize asset
  let stencil_op_back ← UnityShaderSerializedStencilOp.deserialize asset
  let stencil_read_mask ← UnityShaderSerializedShaderFloatValue.deserialize asset
  let stencil_write_mask ← UnityShaderSerializedShaderFloatValue.deserialize asset
  let stencil_ref ← UnityShaderSerializedShaderFloatValue.deserialize asset
  let fog_start ← UnityShaderSerializedShaderFloatValue.deserialize asset
  let fog_end ← UnityShaderSerializedShaderFloatValue.deserialize asset
  let fog_density ← UnityShaderSerializedShaderFloatValue.deserialize asset
  let fog_color ← UnityShaderSerializedShaderVectorValue.deserialize asset
  let fmv ← read_i32
  let fog_mode ← liftPanicOpt (get_fog_mode fmv) "unrecognized fog mode"
  let gpu_program_id ← read_i32
  let tags ← OMap.deserialize deserializeString deserializeString
  let lod ← read_i32
  let lighting ← read_bool
  align
  mpure { name := name, rt_blend := rt_blend, rt_separate_blend := rt_separate_blend,
          z_clip := z_clip, z_test := z_test, z_write := z_write, culling := culling,
          conservative := conservative, offset_factor := offset_factor,
          offset_units := offset_units, alpha_to_mask := alpha_to_mask,
          stencil_op := stencil_op, stencil_op_front := stencil_op_front,
          stencil_op_back := stencil_op_back, stencil_read_mask := stencil_read_mask,
          stencil_write_mask := stencil_write_mask, stencil_ref := stencil_ref,
          fog_start := fog_start, fog_end := fog_end, fog_density := fog_density,
          fog_color := fog_color, fog_mode := fog_mode,
          gpu_program_id := gpu_program_id, tags := tags, lod := lod,
          lighting := lighting }

structure UnityShaderBindChannel where
  source : Nat
  target : Nat
deriving DecidableEq

def UnityShaderBindChannel.deserialize (_asset : AssetInfo) : M UnityShaderBindChannel := do
  let source ← read_u8
  let target ← read_u8
  mpure { source := source, target := target }

structure UnityShaderParserBindChannels where
  channels : List UnityShaderBindChannel
  source_map : Nat
deriving DecidableEq

def UnityShaderParserBindChannels.deserialize (asset : AssetInfo) :
    M UnityShaderParserBindChannels := do
  let channels ← deserialize_array (UnityShaderBindChannel.deserialize asset)
  let source_map ← read_u32
  mpure { channels := channels, source_map := source_map }

inductive UnityShaderGpuProgramType where
  | Unknown
  | GLLegacy
  | GLES31AEP
  | GLES31
  | GLES3
  | GLES
  | GLCore32
  | GLCore41
  | GLCore43
  | DX9VertexSM20
  | DX9VertexSM30
  | DX9PixelSM20
  | DX9PixelSM30
  | DX10Level9Vertex
  | DX10Level9Pixel
  | DX11VertexSM40
  | DX11VertexSM50
  | DX11PixelSM40
  | DX11PixelSM50
  | DX11GeometrySM40
  | DX11GeometrySM50
  | DX11HullSM50
  | DX11DomainSM50
  | MetalVS
  | MetalFS
  | SPIRV
  | ConsoleVS
  | ConsoleFS
  | ConsoleHS
  | ConsoleDS
  | ConsoleGS
  | RayTracing
deriving DecidableEq

/-- `UnityShaderSerializedSubProgram::get_gpu_program_type` (material.rs
lines 822-858): a pure function that panics (`none`) on any value outside
`0..=31`. -/
def get_gpu_program_type (value : Nat) : Option UnityShaderGpuProgramType :=
  match value with
  | 0 => some .Unknown
  | 1 => some .GLLegacy
  | 2 => some .GLES31AEP
  | 3 => some .GLES31
  | 4 => some .GLES3
  | 5 => some .GLES
  | 6 => some .GLCore32
  | 7 => some .GLCore41
  | 8 => some .GLCore43
  | 9 => some .DX9VertexSM20
  | 10 => some .DX9VertexSM30
  | 11 => some .DX9PixelSM20
  | 12 => some .DX9PixelSM30
  | 13 => some .DX10Level9Vertex
  | 14 => some .DX10Level9Pixel
  | 15 => some .DX11VertexSM40
  | 16 => some .DX11VertexSM50
  | 17 => some .DX11PixelSM40
  | 18 => some .DX11PixelSM50
  | 19 => some .DX11GeometrySM40
  | 20 => some .DX11GeometrySM50
  | 21 => some .DX11HullSM50
  | 22 => some .DX11DomainSM50
  | 23 => some .MetalVS
  | 24 => some .MetalFS
  | 25 => some .SPIRV
  | 26 => some .ConsoleVS
  | 27 => some .ConsoleFS
  | 28 => some .ConsoleHS
  | 29 => some .ConsoleDS
  | 30 => some .ConsoleGS
  | 31 => some .RayTracing
  | _ => none

structure UnityShaderVectorParameter where
  name_index : Int
  index : Int
  array_size : Int
  typ : Nat
  dim : Nat
deriving DecidableEq

def UnityShaderVectorParameter.deserialize (_asset : AssetInfo) :
    M UnityShaderVectorParameter := do
  let name_index ← read_i32
  let index ← read_i32
  let array_size ← read_i32
  let typ ← read_u8
  let dim ← read_u8
  align
  mpure { name_index := name_index, index := index, array_size := array_size,
          typ := typ, dim := dim }

structure UnityShaderMatrixParameter where
  name_index : Int
  index : Int
  array_size : Int
  typ : Nat
  row_count : Nat
deriving DecidableEq

def UnityShaderMatrixParameter.deserialize (_asset : AssetInfo) :
    M UnityShaderMatrixParameter := do
  let name_index ← read_i32
  let index ← read_i32
  let array_size ← read_i32
  let typ ← read_u8
  let row_count ← read_u8
  align
  mpure { name_index := name_index, index := index, array_size := array_size,
          typ := typ, row_count := row_count }

structure UnityShaderTextureParameter where
  name_index : Int
  index : Int
  sampler_index : Int
  multi_sampled : Option Bool
  dim : Nat
deriving DecidableEq

def UnityShaderTextureParameter.deserialize (asset : AssetInfo) :
    M UnityShaderTextureParameter := do
  let name_index ← read_i32
  let index ← read_i32
  let sampler_index ← read_i32
  let multi_sampled ←
    if UnityVersion.le { major := 2017, minor := 3 } asset.metadata.unity_version then do
      let b ← read_bool
      mpure (some b)
    else mpure none
  let dim ← read_u8
  align
  mpure { name_index := name_index, index := index, sampler_index := sampler_index,
          multi_sampled := multi_sampled, dim := dim }

structure UnityShaderBufferBinding where
  name_index : Int
  index : Int
  array_size : Option Int
deriving DecidableEq

def UnityShaderBufferBinding.deserialize (asset : AssetInfo) :
    M UnityShaderBufferBinding := do
  let name_index ← read_i32
  let index ← read_i32
  let array_size ←
    if UnityVersion.le { major := 2020 } asset.metadata.unity_version then do
      let v ← read_i32
      mpure (some v)
    else mpure none
  mpure { name_index := name_index, index := index, array_size := array_size }

structure UnityShaderStructParameter where
  name_index : Int
  index : Int
  array_size : Int
  struct_size : Int
  vector_params : List UnityShaderVectorParameter
  matrix_params : List UnityShaderMatrixParameter
deriving DecidableEq

def UnityShaderStructParameter.deserialize (asset : AssetInfo) :
    M UnityShaderStructParameter := do
  let name_index ← read_i32
  let index ← read_i32
  let array_size ← read_i32
  let struct_size ← read_i32
  let vector_params ← deserialize_array (UnityShaderVectorParameter.deserialize asset)
  let matrix_params ← deserialize_array (UnityShaderMatrixParameter.deserialize asset)
  mpure { name_index := name_index, index := index, array_size := array_size,
          struct_size := struct_size, vector_params := vector_params,
          matrix_params := matrix_params }

/-- The `2021.1.4 / 2020.3.2` gate shared by `UnityShaderConstantBuffer`
and `UnityShaderSerializedProgram` (material.rs lines 704-719). -/
def partialCbGate (uv : UnityVersion) : Bool :=
  UnityVersion.le { major := 2021, minor := 1, build := 4 } uv ||
    (uv.major == 2020 && UnityVersion.le { major := 2020, minor := 3, build := 2 } uv)

structure UnityShaderConstantBuffer where
  name_index : Int
  matrix_params : List UnityShaderMatrixParameter
  vector_params : List UnityShaderVectorParameter
  struct_params : Option (List UnityShaderStructParameter)
  size : Int
  is_partial_cb : Option Bool
deriving DecidableEq

def UnityShaderConstantBuffer.deserialize (asset : AssetInfo) :
    M UnityShaderConstantBuffer := do
  let uv := asset.metadata.unity_version
  let name_index ← read_i32
  let matrix_params ← deserialize_array (UnityShaderMatrixParameter.deserialize asset)
  let vector_params ← deserialize_array (UnityShaderVectorParameter.deserialize asset)
  let struct_params ←
    if UnityVersion.le { major := 2017, minor := 3 } uv then do
      let v ← deserialize_array (UnityShaderStructParameter.deserialize asset)
      mpure (some v)
    else mpure none
  let size ← read_i32
  let is_partial_cb ←
    if partialCbGate uv then do
      let b ← read_bool
      align
      mpure (some b)
    else mpure none
  mpure { name_index := name_index, matrix_params := matrix_params,
          vector_params := vector_params, struct_params := struct_params,
          size := size, is_partial_cb := is_partial_cb }

structure UnityShaderUAVParameter where
  name_index : Int
  index : Int
  original_index : Int
deriving DecidableEq

def UnityShaderUAVParameter.deserialize (_asset : AssetInfo) :
    M UnityShaderUAVParameter := do
  let name_index ← read_i32
  let index ← read_i32
  let original_index ← read_i32
  mpure { name_index := name_index, index := index, original_index := original_index }

structure UnityShaderSamplerParameter where
  sampler : Nat
  bind_point : Int
deriving DecidableEq

def UnityShaderSamplerParameter.deserialize (_asset : AssetInfo) :
    M UnityShaderSamplerParameter := do
  let sampler ← read_u32
  let bind_point ← read_i32
  mpure { sampler := sampler, bind_point := bind_point }

structure UnityShaderSerializedProgramParameters where
  vector_params : List UnityShaderVectorParameter
  matrix_params : List UnityShaderMatrixParameter
  texture_params : List UnityShaderTextureParameter
  buffer_params : List UnityShaderBufferBinding
  constant_buffers : List UnityShaderConstantBuffer
  constant_buffer_bindings : List UnityShaderBufferBinding
  uav_params : List UnityShaderUAVParameter
  samplers : Option (List UnityShaderSamplerParameter)
deriving DecidableEq

def UnityShaderSerializedProgramParameters.deserialize (asset : AssetInfo) :
    M UnityShaderSerializedProgramParameters := do
  let vector_params ← deserialize_array (UnityShaderVectorParameter.deserialize asset)
  let matrix_params ← deserialize_array (UnityShaderMatrixParameter.deserialize asset)
  let texture_params ← deserialize_array (UnityShaderTextureParameter.deserialize asset)
  let buffer_params ← deserialize_array (UnityShaderBufferBinding.deserialize asset)
  let constant_buffers ← deserialize_array (UnityShaderConstantBuffer.deserialize asset)
  let constant_buffer_bindings ← deserialize_array (UnityShaderBufferBinding.deserialize asset)
  let uav_params ← deserialize_array (UnityShaderUAVParameter.deserialize asset)
  let samplers ←
    if UnityVersion.le { major := 2017 } asset.metadata.unity_version then do
      let v ← deserialize_array (UnityShaderSamplerParameter.deserialize asset)
      mpure (some v)
    else mpure none
  mpure { vector_params := vector_params, matrix_params := matrix_params,
          texture_params := texture_params, buffer_params := buffer_params,
          constant_buffers := constant_buffers,
          constant_buffer_bindings := constant_buffer_bindings,
          uav_params := uav_params, samplers := samplers }

structure UnityShaderSerializedSubProgram where
  blob_index : Nat
  channels : UnityShaderParserBindChannels
  global_keyword_indices : Option (List Nat)
  local_keyword_indices : Option (List Nat)
  keyword_indices : Option (List Nat)
  shader_hardware_tier : Nat
  gpu_program_type : UnityShaderGpuProgramType
  parameters : Option UnityShaderSerializedProgramParameters
  shader_requirements : Option Int
deriving DecidableEq

/-- The `2019 ≤ engine < 2021.2` split on the keyword-index arrays. -/
def keywordSplit (uv : UnityVersion) : Bool :=
  UnityVersion.le { major := 2019 } uv &&
    UnityVersion.lt uv { major := 2021, minor := 2 }

/-- The keyword-index reads of `UnityShaderSerializedSubProgram::deserialize`
(material.rs lines 876-901), returning
`(global_keyword_indices, local_keyword_indices, keyword_indices)`. -/
def keyword_section (asset : AssetInfo) :
    M (Option (List Nat) × Option (List Nat) × Option (List Nat)) := do
  let uv := asset.metadata.unity_version
  if keywordSplit uv then do
    let g ← read_u16_array
    align
    let l ← read_u16_array
    align
    mpure (some g, some l, none)
  else do
    let k ← read_u16_array
    let _ ← (if UnityVersion.le { major := 2017 } uv then align else mpure ())
    mpure (none, none, some k)

/-- `UnityShaderSerializedSubProgram::deserialize` (material.rs lines
861-934). -/
def UnityShaderSerializedSubProgram.deserialize (asset : AssetInfo) :
    M UnityShaderSerializedSubProgram := do
  let uv := asset.metadata.unity_version
  let blob_index ← read_u32
  let channels ← UnityShaderParserBindChannels.deserialize asset
  let (global_keyword_indices, local_keyword_indices, keyword_indices) ←
    keyword_section asset
  let shader_hardware_tier ← read_u8
  let gpv ← read_u8
  let gpu_program_type ←
    liftPanicOpt (get_gpu_program_type gpv) "unrecognized GPU program type"
  align
  let parameters ← UnityShaderSerializedProgramParameters.deserialize asset
  let shader_requirements ←
    (if UnityVersion.le { major := 2017, minor := 2 } uv then
      (if UnityVersion.le { major := 2021 } uv then
        mbind read_i64 fun v => mpure (some v)
      else mbind read_i32 fun v => mpure (some v))
    else mpure none)
  mpure { blob_index := blob_index, channels := channels,
          global_keyword_indices := global_keyword_indices,
          local_keyword_indices := local_keyword_indices,
          keyword_indices := keyword_indices,
          shader_hardware_tier := shader_hardware_tier,
          gpu_program_type := gpu_program_type, parameters := some parameters,
          shader_requirements := shader_requirements }

structure UnityShaderSerializedProgram where
  sub_programs : List UnityShaderSerializedSubProgram
  common_parameters : Option UnityShaderSerializedProgramParameters
deriving DecidableEq

def UnityShaderSerializedProgram.deserialize (asset : AssetInfo) :
    M UnityShaderSerializedProgram := do
  let sub_programs ← deserialize_array (UnityShaderSerializedSubProgram.deserialize asset)
  let common_parameters ←
    if partialCbGate asset.metadata.unity_version then do
      let v ← UnityShaderSerializedProgramParameters.deserialize asset
      mpure (some v)
    else mpure none
  mpure { sub_programs := sub_programs, common_parameters := common_parameters }

def readHash128 (_asset : AssetInfo) : M (List Nat) := do
  mreplicate 16 read_u8

structure UnityShaderSerializedPass where
  name_indices : OMap String Int
  typ : UnityShaderPassType
  state : UnityShaderSerializedShaderState
  program_mask : Nat
  prog_vertex : UnityShaderSerializedProgram
  prog_fragment : UnityShaderSerializedProgram
  prog_geometry : UnityShaderSerializedProgram
  prog_hull : UnityShaderSerializedProgram
  prog_domain : UnityShaderSerializedProgram
  prog_ray_tracing : Option UnityShaderSerializedProgram
  has_instancing_variant : Bool
  has_procedural_instancing_variant : Option Bool
  use_name : String
  name : String
  texture_name : String
  tags : OMap String String
  serialized_keyword_state_mask : Option (List Nat)
deriving DecidableEq

/-- `UnityShaderSerializedPass::get_pass_type` (material.rs lines
1012-1019): a pure function that panics (`none`) on any value outside
`{0, 1, 2}`. -/
def get_pass_type (value : Int) : Option UnityShaderPassType :=
  if value = 0 then some UnityShaderPassType.Normal
  else if value = 1 then some UnityShaderPassType.Use
  else if value = 2 then some UnityShaderPassType.Grab
  else none

def UnityShaderSerializedPass.deserialize (asset : AssetInfo) :
    M UnityShaderSerializedPass := do
  let uv := asset.metadata.unity_version
  if UnityVersion.le { major := 2020, minor := 2 } uv then do
    let _editor_data_hash ← deserialize_array (readHash128 asset)
    align
    let _platforms ← read_byte_array
    align
    if UnityVersion.lt uv { major := 2021, minor := 2 } then do
      let _local_keyword_mask ← read_u16_array
      align
      let _global_keyword_mask ← read_u16_array
      align
    else mpure ()
  else mpure ()
  let name_indices ← OMap.deserialize deserializeString read_i32
  let ptv ← read_i32
  let typ ← liftPanicOpt (get_pass_type ptv) "unrecognized pass type"
  let state ← UnityShaderSerializedShaderState.deserialize asset
  let program_mask ← read_u32
  let prog_vertex ← UnityShaderSerializedProgram.deserialize asset
  let prog_fragment ← UnityShaderSerializedProgram.deserialize asset
  let prog_geometry ← UnityShaderSerializedProgram.deserialize asset
  let prog_hull ← UnityShaderSerializedProgram.deserialize asset
  let prog_domain ← UnityShaderSerializedProgram.deserialize asset
  let prog_ray_tracing ←
    if UnityVersion.le { major := 2019, minor := 3 } uv then do
      let v ← UnityShaderSerializedProgram.deserialize asset
      mpure (some v)
    else mpure none
  let has_instancing_variant ← read_bool
  let has_procedural_instancing_variant ←
    if UnityVersion.le { major := 2018 } uv then do
      let b ← read_bool
      mpure (some b)
    else mpure none
  align
  let use_name ← read_char_array
  let name ← read_char_array
  let texture_name ← read_char_array
  let tags ← OMap.deserialize deserializeString deserializeString
  let serialized_keyword_state_mask ←
    if UnityVersion.le { major := 2021, minor := 2 } uv then do
      let v ← read_u16_array
      mpure (some v)
    else mpure none
  if UnityVersion.le { major := 2021, minor := 2 } uv then align else mpure ()
  mpure { name_indices := name_indices, typ := typ, state := state,
          program_mask := program_mask, prog_vertex := prog_vertex,
          prog_fragment := prog_fragment, prog_geometry := prog_geometry,
          prog_hull := prog_hull, prog_domain := prog_domain,
          prog_ray_tracing := prog_ray_tracing,
          has_instancing_variant := has_instancing_variant,
          has_procedural_instancing_variant := has_procedural_instancing_variant,
          use_name := use_name, name := name, texture_name := texture_name,
          tags := tags, serialized_keyword_state_mask := serialized_keyword_state_mask }

structure UnityShaderSerializedSubShader where
  passes : List UnityShaderSerializedPass
  tags : OMap String String
  lod : Int
deriving DecidableEq

def UnityShaderSerializedSubShader.deserialize (asset : AssetInfo) :
    M UnityShaderSerializedSubShader := do
  let passes ← deserialize_array (UnityShaderSerializedPass.deserialize asset)
  let tags ← OMap.deserialize deserializeString deserializeString
  let lod ← read_i32
  mpure { passes := passes, tags := tags, lod := lod }

structure UnityShader where
  name : String
  props : List UnityShaderSerializedProperty
  sub_shaders : List UnityShaderSerializedSubShader
deriving DecidableEq

def UnityShader.deserialize (asset : AssetInfo) : M UnityShader := do
  let name ← read_char_array
  let props ← deserialize_array (UnityShaderSerializedProperty.deserialize asset)
  let sub_shaders ← deserialize_array (UnityShaderSerializedSubShader.deserialize asset)
  mpure { name := name, props := props, sub_shaders := sub_shaders }

/-- `UnityShader::from_bytes` (material.rs lines 1169-1177). -/
def UnityShader.from_bytes (data : List Nat) (asset : AssetInfo) :
    RunResult UnityShader :=
  let reader := AssetReader.new data
  match UnityShader.deserialize asset { reader with endianness := asset.header.endianness } with
  | .ok (m, _) => .ok m
  | .error (.err e) => .failed (renderError e)
  | .error (.panicked m) => .panicked m

/-! ### Monad and primitive-read lemmas -/

@[simp]
theorem bind_def {α β : Type} (x : M α) (f : α → M β) : x >>= f = mbind x f := rfl

@[simp]
theorem pure_def {α : Type} (a : α) : (pure a : M α) = mpure a := rfl

theorem mpure_ok {α : Type} {a b : α} {s s2 : AssetReader} :
    mpure a s = Except.ok (b, s2) ↔ b = a ∧ s2 = s := by
  unfold mpure
  constructor
  · intro h
    injection h with h
    injection h with h1 h2
    exact ⟨h1.symm, h2.symm⟩
  · rintro ⟨rfl, rfl⟩
    rfl

theorem of_mbind_ok {α β : Type} {x : M α} {f : α → M β} {s s2 : AssetReader} {b : β}
    (h : mbind x f s = Except.ok (b, s2)) :
    ∃ a s1, x s = Except.ok (a, s1) ∧ f a s1 = Except.ok (b, s2) := by
  unfold mbind at h
  cases hx : x s with
  | ok p => rw [hx] at h; exact ⟨p.1, p.2, rfl, h⟩
  | error e => rw [hx] at h; cases h

theorem mbind_eq_of_ok {α β : Type} {x : M α} {f : α → M β} {s s1 : AssetReader} {a : α}
    (h : x s = Except.ok (a, s1)) : mbind x f s = f a s1 := by
  unfold mbind
  rw [h]

theorem mbind_eq_of_error {α β : Type} {x : M α} {f : α → M β} {s : AssetReader}
    {e : Failure} (h : x s = Except.error e) : mbind x f s = Except.error e := by
  unfold mbind
  rw [h]

theorem mreplicate_length {α : Type} {x : M α} :
    ∀ {n : Nat} {s s2 : AssetReader} {xs : List α},
      mreplicate n x s = Except.ok (xs, s2) → xs.length = n := by
  intro n
  induction n with
  | zero =>
    intro s s2 xs h
    obtain ⟨h1, _⟩ := mpure_ok.mp h
    simp [h1]
  | succ n ih =>
    intro s s2 xs h
    obtain ⟨a, s1, _, h⟩ := of_mbind_ok h
    obtain ⟨as, s3, h2, h⟩ := of_mbind_ok h
    obtain ⟨h3, _⟩ := mpure_ok.mp h
    subst h3
    simp [ih h2]

theorem mreplicate_forall {α : Type} {x : M α} {P : α → Prop}
    (hx : ∀ s a s2, x s = Except.ok (a, s2) → P a) :
    ∀ {n : Nat} {s s2 : AssetReader} {xs : List α},
      mreplicate n x s = Except.ok (xs, s2) → ∀ a ∈ xs, P a := by
  intro n
  induction n with
  | zero =>
    intro s s2 xs h
    obtain ⟨h1, _⟩ := mpure_ok.mp h
    subst h1
    intro a ha
    cases ha
  | succ n ih =>
    intro s s2 xs h
    obtain ⟨a, s1, h1, h⟩ := of_mbind_ok h
    obtain ⟨as, s3, h2, h⟩ := of_mbind_ok h
    obtain ⟨h3, _⟩ := mpure_ok.mp h
    subst h3
    intro b hb
    rcases List.mem_cons.mp hb with hb | hb
    · exact hb ▸ hx _ _ _ h1
    · exact ih h2 b hb

theorem map_mod_getD_lt (l : List Nat) (i : Nat) :
    (l.map (fun b => b % 256)).getD i 0 < 256 := by
  rw [List.getD_eq_getElem?_getD, List.getElem?_map]
  cases h : l[i]? with
  | none => decide
  | some b => exact Nat.mod_lt _ (by norm_num)

theorem read_bytes_getD_lt {n : Nat} {s s2 : AssetReader} {bs : List Nat}
    (h : read_bytes n s = Except.ok (bs, s2)) : ∀ i, bs.getD i 0 < 256 := by
  unfold read_bytes at h
  split at h
  · obtain ⟨h1, h2⟩ : bs = ((s.data.drop s.pos).take n).map (· % 256) ∧ _ := by
      injection h with h
      injection h with h1 h2
      exact ⟨h1.symm, h2.symm⟩
    intro i
    rw [h1]
    exact map_mod_getD_lt _ i
  · cases h

theorem read_u32_lt {s s2 : AssetReader} {v : Nat}
    (h : read_u32 s = Except.ok (v, s2)) : v < 4294967296 := by
  unfold read_u32 at h
  simp only [bind_def] at h
  obtain ⟨e, s1, _, h⟩ := of_mbind_ok h
  obtain ⟨bs, s3, hb, h⟩ := of_mbind_ok h
  have hlt := read_bytes_getD_lt hb
  cases e with
  | big =>
    obtain ⟨h1, _⟩ := mpure_ok.mp h
    subst h1
    have h0 := hlt 0
    have h2 := hlt 1
    have h3 := hlt 2
    have h4 := hlt 3
    unfold u32be
    omega
  | little =>
    obtain ⟨h1, _⟩ := mpure_ok.mp h
    subst h1
    have h0 := hlt 0
    have h2 := hlt 1
    have h3 := hlt 2
    have h4 := hlt 3
    unfold u32le
    omega

theorem read_i32_range {s s2 : AssetReader} {v : Int}
    (h : read_i32 s = Except.ok (v, s2)) : -2147483648 ≤ v ∧ v < 2147483648 := by
  unfold read_i32 at h
  simp only [bind_def] at h
  obtain ⟨u, s1, hu, h⟩ := of_mbind_ok h
  obtain ⟨h1, _⟩ := mpure_ok.mp h
  subst h1
  have := read_u32_lt hu
  unfold toSigned32
  split <;> omega

/-- `align` computed in closed form. -/
theorem align_eq (s : AssetReader) :
    align s =
      Except.ok ((), { s with pos := (s.pos + 3) % 18446744073709551616 / 4 * 4 }) := rfl

theorem align_ok {s s2 : AssetReader} (h : align s = Except.ok ((), s2)) :
    s2 = { s with pos := (s.pos + 3) % 18446744073709551616 / 4 * 4 } := by
  rw [align_eq] at h
  injection h with h
  injection h with _ h2
  exact h2.symm

/-- A multiple of 4 below `2^64` stays below `2^64` after adding 3, so
re-aligning it is the identity. -/
theorem align_fix (A : Nat) (hA : A < 18446744073709551616) :
    (A / 4 * 4 + 3) % 18446744073709551616 / 4 * 4 = A / 4 * 4 := by
  have h1 := Nat.div_add_mod A 4
  have h2 : A % 4 < 4 := Nat.mod_lt _ (by norm_num)
  have h3 : A / 4 * 4 + 3 < 18446744073709551616 := by omega
  rw [Nat.mod_eq_of_lt h3]
  omega

/-! ### Failure-shape and endianness-preservation predicates -/

/-- `m` can only fail with the I/O error (never any other error kind). -/
def onlyIoErrors {α : Type} (m : M α) : Prop :=
  ∀ s e, m s = Except.error e → e = Failure.err AssetReaderError.ioError

theorem onlyIoErrors_mpure {α : Type} (a : α) : onlyIoErrors (mpure a) := by
  intro s e h
  cases h

theorem onlyIoErrors_mbind {α β : Type} {x : M α} {f : α → M β}
    (hx : onlyIoErrors x) (hf : ∀ a, onlyIoErrors (f a)) : onlyIoErrors (mbind x f) := by
  intro s e h
  unfold mbind at h
  cases hxs : x s with
  | ok p => rw [hxs] at h; exact hf p.1 p.2 e h
  | error e2 =>
    rw [hxs] at h
    injection h with h
    exact h ▸ hx s e2 hxs

theorem onlyIoErrors_ite {α : Type} {c : Prop} [Decidable c] {x y : M α}
    (hx : onlyIoErrors x) (hy : onlyIoErrors y) : onlyIoErrors (if c then x else y) := by
  split
  · exact hx
  · exact hy

theorem onlyIoErrors_read_bytes (n : Nat) : onlyIoErrors (read_bytes n) := by
  intro s e h
  unfold read_bytes at h
  split at h
  · cases h
  · injection h with h
    exact h.symm

theorem onlyIoErrors_getEndianness : onlyIoErrors getEndianness := by
  intro s e h
  cases h

theorem onlyIoErrors_stream_position : onlyIoErrors stream_position := by
  intro s e h
  cases h

theorem onlyIoErrors_seekStart (n : Nat) : onlyIoErrors (seekStart n) := by
  intro s e h
  cases h

theorem onlyIoErrors_seekCurrent (k : Int) : onlyIoErrors (seekCurrent k) := by
  intro s e h
  unfold seekCurrent at h
  split at h
  · injection h with h
    exact h.symm
  · cases h

theorem onlyIoErrors_align : onlyIoErrors align := by
  unfold align
  exact onlyIoErrors_mbind onlyIoErrors_stream_position fun idx =>
    onlyIoErrors_mbind (onlyIoErrors_seekStart _) fun _ => onlyIoErrors_mpure _

theorem onlyIoErrors_read_u8 : onlyIoErrors read_u8 := by
  unfold read_u8
  simp only [bind_def]
  exact onlyIoErrors_mbind (onlyIoErrors_read_bytes 1) fun _ => onlyIoErrors_mpure _

theorem onlyIoErrors_read_u32 : onlyIoErrors read_u32 := by
  unfold read_u32
  simp only [bind_def]
  refine onlyIoErrors_mbind onlyIoErrors_getEndianness fun e => ?_
  refine onlyIoErrors_mbind (onlyIoErrors_read_bytes 4) fun bs => ?_
  cases e
  · exact onlyIoErrors_mpure _
  · exact onlyIoErrors_mpure _

theorem onlyIoErrors_read_u64 : onlyIoErrors read_u64 := by
  unfold read_u64
  simp only [bind_def]
  refine onlyIoErrors_mbind onlyIoErrors_getEndianness fun e => ?_
  refine onlyIoErrors_mbind (onlyIoErrors_read_bytes 8) fun bs => ?_
  cases e
  · exact onlyIoErrors_mpure _
  · exact onlyIoErrors_mpure _

theorem onlyIoErrors_read_i64 : onlyIoErrors read_i64 := by
  unfold read_i64
  simp only [bind_def]
  exact onlyIoErrors_mbind onlyIoErrors_read_u64 fun _ => onlyIoErrors_mpure _

/-- `m` never changes the reader's endianness. -/
def presEnd {α : Type} (m : M α) : Prop :=
  ∀ s a s2, m s = Except.ok (a, s2) → s2.endianness = s.endianness

theorem presEnd_mpure {α : Type} (a : α) : presEnd (mpure a) := by
  intro s b s2 h
  obtain ⟨_, h2⟩ := mpure_ok.mp h
  rw [h2]

theorem presEnd_mthrow {α : Type} (e : Failure) : presEnd (mthrow e : M α) := by
  intro s b s2 h
  cases h

theorem presEnd_mbind {α β : Type} {x : M α} {f : α → M β}
    (hx : presEnd x) (hf : ∀ a, presEnd (f a)) : presEnd (mbind x f) := by
  intro s b s2 h
  obtain ⟨a, s1, h1, h2⟩ := of_mbind_ok h
  rw [hf a s1 b s2 h2, hx s a s1 h1]

theorem presEnd_ite {α : Type} {c : Prop} [Decidable c] {x y : M α}
    (hx : presEnd x) (hy : presEnd y) : presEnd (if c then x else y) := by
  split
  · exact hx
  · exact hy

theorem presEnd_read_bytes (n : Nat) : presEnd (read_bytes n) := by
  intro s a s2 h
  unfold read_bytes at h
  split at h
  · injection h with h
    injection h with _ h2
    rw [← h2]
  · cases h

theorem presEnd_getEndianness : presEnd getEndianness := by
  intro s a s2 h
  injection h with h
  injection h with _ h2
  rw [← h2]

theorem presEnd_stream_position : presEnd stream_position := by
  intro s a s2 h
  injection h with h
  injection h with _ h2
  rw [← h2]

theorem presEnd_seekStart (n : Nat) : presEnd (seekStart n) := by
  intro s a s2 h
  injection h with h
  injection h with _ h2
  rw [← h2]

theorem presEnd_seekCurrent (k : Int) : presEnd (seekCurrent k) := by
  intro s a s2 h
  unfold seekCurrent at h
  split at h
  · cases h
  · injection h with h
    injection h with _ h2
    rw [← h2]

theorem presEnd_align : presEnd align := by
  unfold align
  exact presEnd_mbind presEnd_stream_position fun idx =>
    presEnd_mbind (presEnd_seekStart _) fun _ => presEnd_mpure _

theorem presEnd_read_u8 : presEnd read_u8 := by
  unfold read_u8
  simp only [bind_def]
  exact presEnd_mbind (presEnd_read_bytes 1) fun _ => presEnd_mpure _

theorem presEnd_read_u32 : presEnd read_u32 := by
  unfold read_u32
  simp only [bind_def]
  refine presEnd_mbind presEnd_getEndianness fun e => ?_
  refine presEnd_mbind (presEnd_read_bytes 4) fun bs => ?_
  cases e
  · exact presEnd_mpure _
  · exact presEnd_mpure _

theorem presEnd_read_u64 : presEnd read_u64 := by
  unfold read_u64
  simp only [bind_def]
  refine presEnd_mbind presEnd_getEndianness fun e => ?_
  refine presEnd_mbind (presEnd_read_bytes 8) fun bs => ?_
  cases e
  · exact presEnd_mpure _
  · exact presEnd_mpure _

theorem presEnd_read_i64 : presEnd read_i64 := by
  unfold read_i64
  simp only [bind_def]
  exact presEnd_mbind presEnd_read_u64 fun _ => presEnd_mpure _

theorem onlyIoErrors_read_header_rest (m : Nat) (f : Int) (v : Nat) :
    onlyIoErrors (read_header_rest m f v) := by
  unfold read_header_rest
  simp only [bind_def, pure_def]
  refine onlyIoErrors_mbind onlyIoErrors_read_u32 fun d0 => ?_
  refine onlyIoErrors_mbind
    (onlyIoErrors_ite
      (onlyIoErrors_mbind (onlyIoErrors_seekStart _) fun _ => onlyIoErrors_mpure _)
      (onlyIoErrors_mpure _)) fun _ => ?_
  refine onlyIoErrors_mbind onlyIoErrors_read_u8 fun eb => ?_
  refine onlyIoErrors_mbind
    (onlyIoErrors_ite
      (onlyIoErrors_mbind (onlyIoErrors_seekCurrent 3) fun _ => onlyIoErrors_mpure _)
      (onlyIoErrors_mpure _)) fun _ => ?_
  refine onlyIoErrors_ite ?_ (onlyIoErrors_mpure _)
  refine onlyIoErrors_mbind onlyIoErrors_read_u32 fun ms => ?_
  refine onlyIoErrors_mbind onlyIoErrors_read_i64 fun fs => ?_
  refine onlyIoErrors_mbind onlyIoErrors_read_i64 fun d2 => ?_
  exact onlyIoErrors_mbind onlyIoErrors_read_i64 fun _ => onlyIoErrors_mpure _

theorem presEnd_read_header_rest (m : Nat) (f : Int) (v : Nat) :
    presEnd (read_header_rest m f v) := by
  unfold read_header_rest
  simp only [bind_def, pure_def]
  refine presEnd_mbind presEnd_read_u32 fun d0 => ?_
  refine presEnd_mbind
    (presEnd_ite (presEnd_mbind (presEnd_seekStart _) fun _ => presEnd_mpure _)
      (presEnd_mpure _)) fun _ => ?_
  refine presEnd_mbind presEnd_read_u8 fun eb => ?_
  refine presEnd_mbind
    (presEnd_ite (presEnd_mbind (presEnd_seekCurrent 3) fun _ => presEnd_mpure _)
      (presEnd_mpure _)) fun _ => ?_
  refine presEnd_ite ?_ (presEnd_mpure _)
  refine presEnd_mbind presEnd_read_u32 fun ms => ?_
  refine presEnd_mbind presEnd_read_i64 fun fs => ?_
  refine presEnd_mbind presEnd_read_i64 fun d2 => ?_
  exact presEnd_mbind presEnd_read_i64 fun _ => presEnd_mpure _

theorem presEnd_read_header : presEnd read_header := by
  unfold read_header
  simp only [bind_def]
  refine presEnd_mbind presEnd_read_u32 fun m => ?_
  refine presEnd_mbind presEnd_read_u32 fun f => ?_
  refine presEnd_mbind presEnd_read_u32 fun v => ?_
  exact presEnd_ite (presEnd_read_header_rest _ _ _) (presEnd_mthrow _)

/-! ### Concrete buffers used by witnesses and counterexamples -/

/-- A version-16 container prefix: the first three header fields decode
and the version check must reject. -/
def c2adata : List Nat := [0, 0, 0, 0] ++ [0, 0, 0, 0] ++ [0, 0, 0, 16]

/-- A version-17 container prefix that ends right after the version field:
the check passes and the next read fails with the I/O error. -/
def c2bdata : List Nat := [0, 0, 0, 0] ++ [0, 0, 0, 0] ++ [0, 0, 0, 17]

/-- A version-22 header whose endianness byte selects little-endian and
whose re-read `metadata_size` bytes are `[0,0,0,1]` (big-endian value 1,
little-endian value 16777216). -/
def c4data : List Nat :=
  [0, 0, 0, 9] ++ [0, 0, 0, 0] ++ [0, 0, 0, 22] ++ [0, 0, 0, 0] ++ [0] ++ [0, 0, 0] ++
    [0, 0, 0, 1] ++ [0, 0, 0, 0, 0, 0, 0, 64] ++ [0, 0, 0, 0, 0, 0, 0, 0] ++
    [0, 0, 0, 0, 0, 0, 0, 0]

/-- The header the code decodes from `c4data`. -/
def c4hdr : AssetHeader :=
  { metadata_size := 1, file_size := 64, version := 22, data_offset := 0,
    endianness := Endianness.little }

/-- The reader state after `read_header` on `c4data`: note the reader is
still big-endian. -/
def c4state : AssetReader :=
  { data := c4data, pos := 48, endianness := Endianness.big }

/-! ### Claim theorems -/

/-- Claim C9 (amended): `align` computes `(idx + 3) & !3` on `u64`.  For
every starting position at most `2^64 - 4` — whenever the addition does
not overflow — it moves the cursor forward to the smallest multiple of 4
that is at least the current position, advancing by at most 3 bytes; at
every position the resulting position is a multiple of 4 and `align` is
idempotent.  At the three positions above `2^64 - 4` the wrapping
addition makes `align` seek backward instead (see the counterexample). -/
theorem C9_align_minimal_idempotent :
    ∀ s s2 : AssetReader, align s = Except.ok ((), s2) →
      (s.pos ≤ 18446744073709551612 →
        s.pos ≤ s2.pos ∧ s2.pos ≤ s.pos + 3 ∧
          ∀ m, s.pos ≤ m → m % 4 = 0 → s2.pos ≤ m) ∧
        s2.pos % 4 = 0 ∧ align s2 = Except.ok ((), s2) := by
  intro s s2 h
  have h2 := align_ok h
  subst h2
  constructor
  · intro hb
    have hm : (s.pos + 3) % 18446744073709551616 = s.pos + 3 :=
      Nat.mod_eq_of_lt (by omega)
    have hd := Nat.div_add_mod (s.pos + 3) 4
    have hr : (s.pos + 3) % 4 < 4 := Nat.mod_lt _ (by norm_num)
    refine ⟨?_, ?_, ?_⟩
    · show s.pos ≤ (s.pos + 3) % 18446744073709551616 / 4 * 4
      rw [hm]
      omega
    · show (s.pos + 3) % 18446744073709551616 / 4 * 4 ≤ s.pos + 3
      rw [hm]
      omega
    · intro m hm1 hm4
      show (s.pos + 3) % 18446744073709551616 / 4 * 4 ≤ m
      rw [hm]
      omega
  · refine ⟨Nat.mul_mod_left _ 4, ?_⟩
    rw [align_eq]
    have hq : (s.pos + 3) % 18446744073709551616 < 18446744073709551616 :=
      Nat.mod_lt _ (by norm_num)
    have hX := align_fix ((s.pos + 3) % 18446744073709551616) hq
    show Except.ok ((), { s with
      pos := ((s.pos + 3) % 18446744073709551616 / 4 * 4 + 3) %
        18446744073709551616 / 4 * 4 }) = _
    rw [hX]

/-- Witness for C9 at cursor position 5: the bound `5 ≤ 2^64 - 4` holds,
`align` lands on 8 — the smallest multiple of 4 from 5 — and 8 is a fixed
point of `align`. -/
theorem C9_witness :
    ({ data := [], pos := 5, endianness := Endianness.big } : AssetReader).pos ≤
        ({ data := [], pos := 8, endianness := Endianness.big } : AssetReader).pos ∧
      ({ data := [], pos := 8, endianness := Endianness.big } : AssetReader).pos % 4 = 0 ∧
      ({ data := [], pos := 8, endianness := Endianness.big } : AssetReader).pos ≤
        ({ data := [], pos := 5, endianness := Endianness.big } : AssetReader).pos + 3 ∧
      ({ data := [], pos := 8, endianness := Endianness.big } : AssetReader).pos ≤ 8 ∧
      align { data := [], pos := 8, endianness := Endianness.big } =
        Except.ok ((), { data := [], pos := 8, endianness := Endianness.big }) := by
  have h := C9_align_minimal_idempotent
    { data := [], pos := 5, endianness := Endianness.big }
    { data := [], pos := 8, endianness := Endianness.big } rfl
  have h1 := h.1 (by norm_num)
  exact ⟨h1.1, h.2.1, h1.2.1, h1.2.2 8 (by norm_num) (by norm_num), h.2.2⟩

/-- Counterexample for C9 as stated: at cursor position `2^64 - 1` the
`u64` computation `(idx + 3) & !3` wraps (reader.rs line 131, release
semantics; a debug build panics there), and `align` seeks backward to 0 —
not to a multiple of 4 at least the starting position, so the claimed
forward, minimal advance fails at this position. -/
theorem C9_counterexample :
    align { data := [], pos := 18446744073709551615, endianness := Endianness.big } =
        Except.ok ((), { data := [], pos := 0, endianness := Endianness.big }) ∧
      (0 : Nat) < 18446744073709551615 := by
  exact ⟨rfl, by norm_num⟩

/-- Claim C6: for every element decoder and every input on which
`deserialize_array` succeeds (i32 count, count items, then `align`), the
cursor position immediately afterwards is a multiple of 4. -/
theorem C6_array_decode_aligned :
    ∀ {α : Type} (d : M α) (s : AssetReader) (xs : List α) (s2 : AssetReader),
      deserialize_array d s = Except.ok (xs, s2) → s2.pos % 4 = 0 := by
  intro α d s xs s2 h
  unfold deserialize_array at h
  simp only [bind_def] at h
  obtain ⟨n, s1, _, h⟩ := of_mbind_ok h
  obtain ⟨ys, s3, _, h⟩ := of_mbind_ok h
  obtain ⟨u, s4, ha, h⟩ := of_mbind_ok h
  obtain ⟨_, hs⟩ := mpure_ok.mp h
  subst hs
  cases u
  have h4 := align_ok ha
  subst h4
  exact Nat.mul_mod_left _ 4

/-- Witness for C6: decoding a one-element `u8` array from
`[0,0,0,1,5]` leaves the cursor at 8, a multiple of 4. -/
theorem C6_witness :
    ({ data := [0, 0, 0, 1, 5], pos := 8, endianness := Endianness.big } : AssetReader).pos
      % 4 = 0 :=
  C6_array_decode_aligned read_u8 (AssetReader.new [0, 0, 0, 1, 5]) [5]
    { data := [0, 0, 0, 1, 5], pos := 8, endianness := Endianness.big } rfl

/-- Claim C2: when the first three header fields decode to version `v`,
`read_header` returns `UnsupportedFileVersion v` exactly when
`v ∉ {17, 18, 19, 20, 21, 22}`; for `v` in the set the check passes and
any later failure is only the I/O error. -/
theorem C2_version_gate :
    ∀ (s : AssetReader) (v : Nat) (s3 : AssetReader),
      mbind read_u32 (fun _ => mbind read_u32 fun _ => read_u32) s = Except.ok (v, s3) →
      (supportedVersions.contains v = false →
          read_header s = Except.error (.err (.UnsupportedFileVersion v))) ∧
        (supportedVersions.contains v = true →
          ∀ e, read_header s = Except.error e → e = Failure.err AssetReaderError.ioError) := by
  intro s v s3 h
  obtain ⟨m, s1, h1, h⟩ := of_mbind_ok h
  obtain ⟨f, s2, h2, h3⟩ := of_mbind_ok h
  constructor
  · intro hc
    unfold read_header
    simp only [bind_def]
    rw [mbind_eq_of_ok h1, mbind_eq_of_ok h2, mbind_eq_of_ok h3, hc]
    rfl
  · intro hc e he
    unfold read_header at he
    simp only [bind_def] at he
    rw [mbind_eq_of_ok h1, mbind_eq_of_ok h2, mbind_eq_of_ok h3, hc] at he
    simp only [if_true] at he
    exact onlyIoErrors_read_header_rest m (Int.ofNat f) v s3 e he

/-- Witness for C2: version 16 is rejected with
`UnsupportedFileVersion 16`; on a version-17 prefix the check passes and
the truncated buffer produces only the I/O error. -/
theorem C2_witness :
    read_header (AssetReader.new c2adata) =
        Except.error (.err (.UnsupportedFileVersion 16)) ∧
      Failure.err AssetReaderError.ioError = Failure.err AssetReaderError.ioError := by
  constructor
  · exact (C2_version_gate (AssetReader.new c2adata) 16
      { data := c2adata, pos := 12, endianness := Endianness.big } rfl).1 rfl
  · exact (C2_version_gate (AssetReader.new c2bdata) 17
      { data := c2bdata, pos := 12, endianness := Endianness.big } rfl).2 rfl
      (Failure.err AssetReaderError.ioError) rfl

/-- Claim C4 (amended): header fields are read with the reader's
endianness at entry to `read_header` — big for a fresh reader — both
before and after the endianness byte, including the version-22 re-reads;
`read_header` never changes the reader's endianness, and the selected
endianness is installed only afterwards, by `read_asset_info`, for
everything following the header. -/
theorem C4_header_entry_endianness :
    (∀ data, (AssetReader.new data).endianness = Endianness.big) ∧
      (∀ s hdr s2, read_header s = Except.ok (hdr, s2) →
        s2.endianness = s.endianness) ∧
      (∀ s, read_asset_info s =
        mbind read_header (fun hdr s2 =>
          read_asset_info_body hdr { s2 with endianness := hdr.endianness }) s) := by
  refine ⟨fun _ => rfl, fun s hdr s2 h => presEnd_read_header s hdr s2 h, fun s => ?_⟩
  rfl

/-- Witness for C4: a fresh reader is big-endian, and running
`read_header` on the version-22 little-endian buffer leaves the reader's
endianness unchanged (big). -/
theorem C4_witness :
    (AssetReader.new []).endianness = Endianness.big ∧
      c4state.endianness = (AssetReader.new c4data).endianness := by
  refine ⟨C4_header_entry_endianness.1 [], ?_⟩
  exact C4_header_entry_endianness.2.1 (AssetReader.new c4data) c4hdr c4state rfl

/-- Counterexample for C4 as stated: on `c4data` the endianness byte
selects little-endian, yet the version-22 re-read `metadata_size` decodes
to 1 — the big-endian interpretation of its bytes `[0,0,0,1]` — and not to
the little-endian value 16777216 that the claim requires. -/
theorem C4_counterexample :
    read_header (AssetReader.new c4data) = Except.ok (c4hdr, c4state) ∧
      c4hdr.endianness = Endianness.little ∧ c4hdr.metadata_size = 1 ∧
      u32le 0 0 0 1 = 16777216 ∧ ((1 : Nat) == 16777216) = false := by
  exact ⟨rfl, rfl, rfl, rfl, rfl⟩

/-! ### Object/type-table resolution lemmas (claim C1) -/

theorem read_object_fields_range {hdr : AssetHeader} {s s1 : AssetReader}
    {p b0 : Int} {bsz : Nat} {tid : Int}
    (h : read_object_fields hdr s = Except.ok ((p, b0, bsz, tid), s1)) :
    -2147483648 ≤ tid ∧ tid < 2147483648 := by
  unfold read_object_fields at h
  simp only [bind_def] at h
  obtain ⟨u, sa, _, h⟩ := of_mbind_ok h
  obtain ⟨p0, sb, _, h⟩ := of_mbind_ok h
  obtain ⟨b1, sc, _, h⟩ := of_mbind_ok h
  obtain ⟨sz, sd, _, h⟩ := of_mbind_ok h
  obtain ⟨t, se, ht, h⟩ := of_mbind_ok h
  obtain ⟨h4, _⟩ := mpure_ok.mp h
  injection h4 with hp h4
  injection h4 with hb h4
  injection h4 with hsz ht2
  subst ht2
  exact read_i32_range ht

theorem read_object_good {hdr : AssetHeader} {md : AssetMetadata}
    {s s2 : AssetReader} {o : UnityObject}
    (h : read_object hdr md s = Except.ok (o, s2)) :
    md.types.get? (usizeOfInt o.type_id) = some o.serialized_type ∧
      o.class_id = o.serialized_type.class_id ∧
      -2147483648 ≤ o.type_id ∧ o.type_id < 2147483648 := by
  unfold read_object at h
  simp only [bind_def] at h
  obtain ⟨quad, s1, hq, h⟩ := of_mbind_ok h
  obtain ⟨p, b0, bsz, tid⟩ := quad
  have hrange := read_object_fields_range hq
  cases hg : md.types.get? (usizeOfInt tid) with
  | some st =>
    rw [hg] at h
    obtain ⟨ho, _⟩ := mpure_ok.mp h
    subst ho
    exact ⟨hg, rfl, hrange⟩
  | none =>
    rw [hg] at h
    cases h

theorem read_objects_good {hdr : AssetHeader} {md : AssetMetadata}
    {s s2 : AssetReader} {objs : List UnityObject}
    (h : read_objects hdr md s = Except.ok (objs, s2)) :
    ∀ o ∈ objs,
      md.types.get? (usizeOfInt o.type_id) = some o.serialized_type ∧
        o.class_id = o.serialized_type.class_id ∧
        -2147483648 ≤ o.type_id ∧ o.type_id < 2147483648 := by
  unfold read_objects at h
  simp only [bind_def] at h
  obtain ⟨n, s1, _, h⟩ := of_mbind_ok h
  exact mreplicate_forall (fun s a s2 ha => read_object_good ha) h

theorem read_metadata_types_lt {v : Nat} {s s2 : AssetReader} {md : AssetMetadata}
    (h : read_metadata v s = Except.ok (md, s2)) : md.types.length < 4294967296 := by
  unfold read_metadata at h
  simp only [bind_def] at h
  obtain ⟨vstr, s1, _, h⟩ := of_mbind_ok h
  obtain ⟨uv, sa, _, h⟩ := of_mbind_ok h
  obtain ⟨tp, sb, _, h⟩ := of_mbind_ok h
  obtain ⟨ett, sc, _, h⟩ := of_mbind_ok h
  obtain ⟨tc, sd, htc, h⟩ := of_mbind_ok h
  obtain ⟨types, se, hty, h⟩ := of_mbind_ok h
  obtain ⟨hmd, _⟩ := mpure_ok.mp h
  subst hmd
  have h1 := mreplicate_length hty
  have h2 := read_u32_lt htc
  simpa [h1] using h2

theorem get?_some_lt {α : Type} {l : List α} {n : Nat} {a : α}
    (h : l.get? n = some a) : n < l.length := by
  by_contra hn
  rw [List.get?_eq_none.mpr (by omega)] at h
  cases h

/-- Claim C1: on every buffer on which `read_asset_info` succeeds, each
object's `type_id` is a valid index into the metadata type table and its
`class_id` is the table entry's `class_id`; and whenever the raw object
record carries a `type_id` whose table lookup fails, `read_object` fails
with `MissingType(type_id)`. -/
theorem C1_object_type_resolution :
    (∀ (data : List Nat) (A : AssetInfo) (s2 : AssetReader),
      read_asset_info (AssetReader.new data) = Except.ok (A, s2) →
      ∀ O ∈ A.objects,
        0 ≤ O.type_id ∧ O.type_id.toNat < A.metadata.types.length ∧
          ∃ st, A.metadata.types.get? O.type_id.toNat = some st ∧
            O.class_id = st.class_id ∧ O.serialized_type = st) ∧
      (∀ (hdr : AssetHeader) (md : AssetMetadata) (s : AssetReader)
          (p b0 : Int) (bsz : Nat) (tid : Int) (s1 : AssetReader),
        read_object_fields hdr s = Except.ok ((p, b0, bsz, tid), s1) →
        md.types.get? (usizeOfInt tid) = none →
        read_object hdr md s = Except.error (.err (.MissingType tid))) := by
  constructor
  · intro data A s2 h O hO
    unfold read_asset_info at h
    simp only [bind_def] at h
    obtain ⟨hdr, s1, _, h⟩ := of_mbind_ok h
    obtain ⟨u, sb, _, h⟩ := of_mbind_ok h
    unfold read_asset_info_body at h
    simp only [bind_def] at h
    obtain ⟨md, sc, hmd, h⟩ := of_mbind_ok h
    obtain ⟨objs, sd, hobjs, h⟩ := of_mbind_ok h
    obtain ⟨sts, se, _, h⟩ := of_mbind_ok h
    obtain ⟨exts, sf, _, h⟩ := of_mbind_ok h
    obtain ⟨rts, sg, _, h⟩ := of_mbind_ok h
    obtain ⟨ui, sh, _, h⟩ := of_mbind_ok h
    obtain ⟨hA, _⟩ := mpure_ok.mp h
    subst hA
    have hlen := read_metadata_types_lt hmd
    obtain ⟨hget, hcls, hlo, hhi⟩ := read_objects_good hobjs O hO
    have hidx := get?_some_lt hget
    have h0 : 0 ≤ O.type_id := by
      by_contra hneg
      push_neg at hneg
      have h1 : (O.type_id + 18446744073709551616 * 1) % 18446744073709551616 =
          O.type_id % 18446744073709551616 := @Int.add_mul_emod_self_left O.type_id _ _
      rw [mul_one] at h1
      have he : O.type_id % 18446744073709551616 = O.type_id + 18446744073709551616 := by
        rw [← h1]
        exact Int.emod_eq_of_lt (by omega) (by omega)
      unfold usizeOfInt at hidx
      rw [he] at hidx
      omega
    have husz : usizeOfInt O.type_id = O.type_id.toNat := by
      unfold usizeOfInt
      rw [Int.emod_eq_of_lt h0 (by omega)]
    rw [husz] at hget hidx
    exact ⟨h0, hidx, O.serialized_type, hget, hcls, rfl⟩
  · intro hdr md s p b0 bsz tid s1 hq hnone
    unfold read_object
    simp only [bind_def]
    rw [mbind_eq_of_ok hq]
    show (match md.types.get? (usizeOfInt tid) with
      | some serialized_type => mpure
          { path_id := p, byte_start := b0 + i64OfUsize hdr.data_offset,
            byte_size := bsz, type_id := tid, serialized_type := serialized_type,
            class_id := serialized_type.class_id }
      | none => mthrow (.err (.MissingType tid)) : M UnityObject) s1 = _
    rw [hnone]
    rfl

/-- A minimal version-17 container: one serialized type (class 21), one
object referencing it with `type_id = 0`, no script types, no externals,
empty user information. -/
def c1data : List Nat :=
  [0, 0, 0, 0] ++ [0, 0, 0, 93] ++ [0, 0, 0, 17] ++ [0, 0, 0, 0] ++ [1] ++ [0, 0, 0] ++
    [50, 46, 53, 46, 48, 102, 53, 0] ++ [0, 0, 0, 0] ++ [0] ++ [0, 0, 0, 1] ++
    [0, 0, 0, 21] ++ [0] ++ [255, 255] ++ List.replicate 16 0 ++
    [0, 0, 0, 1] ++ List.replicate 8 0 ++ [0, 0, 0, 0] ++ [0, 0, 0, 0] ++ [0, 0, 0, 0] ++
    [0, 0, 0, 0] ++ [0, 0, 0, 0] ++ [0]

/-- Intermediate reader state over `c1data` at position `p`. -/
def c1at (p : Nat) : AssetReader :=
  { data := c1data, pos := p, endianness := Endianness.big }

/-- The single serialized type of `c1data` (class 21). -/
def c1type : SerializedType :=
  { class_id := 21, is_stripped_type := false, script_type_index := -1, script_id := [],
    old_type_hash := List.replicate 16 0, type_dependencies := [], type_tree := none,
    class_name := "", name_space := "", asm_name := "" }

def c1hdr : AssetHeader :=
  { metadata_size := 0, file_size := 93, version := 17, data_offset := 0,
    endianness := Endianness.big }

def c1uv : UnityVersion :=
  { major := 2, minor := 5, build := 0, suffix := UnitySuffix.final, suffix_num := 5 }

def c1md : AssetMetadata :=
  { unity_version := c1uv, target_platform := 0, enable_type_tree := false,
    types := [c1type] }

def c1obj : UnityObject :=
  { path_id := 0, byte_start := 0, byte_size := 0, type_id := 0,
    serialized_type := c1type, class_id := 21 }

def c1asset : AssetInfo :=
  { header := c1hdr, metadata := c1md, objects := [c1obj], script_types := [],
    externals := [], ref_types := [], user_information := "" }

/-- `read_asset_info` on `c1data`, assembled from per-stage evaluations. -/
theorem c1run_eq :
    read_asset_info (AssetReader.new c1data) = Except.ok (c1asset, c1at 93) := by
  have h1 : read_header (AssetReader.new c1data) = Except.ok (c1hdr, c1at 20) := rfl
  have h2 : set_endianness c1hdr.endianness (c1at 20) = Except.ok ((), c1at 20) := rfl
  have h3 : read_metadata c1hdr.version (c1at 20) = Except.ok (c1md, c1at 60) := rfl
  have h4 : read_objects c1hdr c1md (c1at 60) = Except.ok ([c1obj], c1at 84) := rfl
  have h5 : (if c1hdr.version ≥ 11 then read_script_types
      else mpure ([] : List ScriptType)) (c1at 84) = Except.ok ([], c1at 88) := rfl
  have h6 : read_externals (c1at 88) = Except.ok ([], c1at 92) := rfl
  have h7 : (if c1hdr.version ≥ 20 then read_ref_types c1md c1hdr.version
      else mpure ([] : List SerializedType)) (c1at 92) = Except.ok ([], c1at 92) := rfl
  have h8 : (if c1hdr.version ≥ 5 then read_null_terminated_string
      else mpure "") (c1at 92) = Except.ok ("", c1at 93) := rfl
  unfold read_asset_info read_asset_info_body
  simp only [bind_def, mbind_eq_of_ok h1, mbind_eq_of_ok h2, mbind_eq_of_ok h3,
    mbind_eq_of_ok h4, mbind_eq_of_ok h5, mbind_eq_of_ok h6, mbind_eq_of_ok h7,
    mbind_eq_of_ok h8]
  rfl

/-- A raw object record whose `type_id` (3) misses the empty type table. -/
def c1bdata : List Nat := List.replicate 16 0 ++ [0, 0, 0, 3]

def c1hdr0 : AssetHeader :=
  { metadata_size := 0, file_size := 0, version := 17, data_offset := 0,
    endianness := Endianness.big }

def c1md0 : AssetMetadata :=
  { unity_version := {}, target_platform := 0, enable_type_tree := false, types := [] }

/-- Witness for C1: on `c1data` the decoded object's `type_id` indexes the
type table and its `class_id` matches; on `c1bdata` a record with
`type_id = 3` against an empty table fails with `MissingType 3`. -/
theorem C1_witness :
    (0 ≤ c1obj.type_id ∧ c1obj.type_id.toNat < c1asset.metadata.types.length ∧
        ∃ st, c1asset.metadata.types.get? c1obj.type_id.toNat = some st ∧
          c1obj.class_id = st.class_id ∧ c1obj.serialized_type = st) ∧
      read_object c1hdr0 c1md0 (AssetReader.new c1bdata) =
        Except.error (.err (.MissingType 3)) := by
  constructor
  · exact C1_object_type_resolution.1 c1data c1asset (c1at 93) c1run_eq c1obj
      (List.Mem.head _)
  · exact C1_object_type_resolution.2 c1hdr0 c1md0 (AssetReader.new c1bdata) 0 0 0 3
      { data := c1bdata, pos := 20, endianness := Endianness.big } rfl rfl

/-! ### Claims C3 and C5: code evaluated at the failing inputs -/

/-- Claim C3, code evaluated at the failing inputs: the enum mappers
panic — modelled as `none` — on fog mode 4, pass type 3 and GPU program
type 32 instead of producing a `DeserializationError`; lifted into the
decoder the panic is a `panicked` outcome, which `Failure.isPanic`
separates from every error the decoder returns. -/
theorem C3_enum_discriminants_panic :
    get_fog_mode 4 = none ∧ get_pass_type 3 = none ∧ get_gpu_program_type 32 = none ∧
      liftPanicOpt (get_fog_mode 4) "unrecognized fog mode" (AssetReader.new []) =
        Except.error (.panicked "unrecognized fog mode") ∧
      (Failure.panicked "unrecognized fog mode").isPanic = true ∧
      ∀ e : AssetReaderError, (Failure.err e).isPanic = false :=
  ⟨rfl, rfl, rfl, rfl, rfl, fun _ => rfl⟩

/-- A legacy type tree: a root node announcing one child, then the child
node with no children (container version 17 field layout: type, name,
byte_size, index, type_flags, version, meta_flag, children_count). -/
def c5data : List Nat :=
  [84, 0] ++ [110, 0] ++ List.replicate 20 0 ++ [0, 0, 0, 1] ++
    [84, 0] ++ [110, 0] ++ List.replicate 20 0 ++ [0, 0, 0, 0]

/-- One loop iteration of the legacy type-tree reader, staged through the
individual reads so that concrete runs can be assembled without a single
monolithic reduction. -/
theorem read_type_tree_go_step {version fuel level : Nat} {count : Int}
    {rest : List (Nat × Int)} {acc : List TypeTreeNode}
    {s s1 s2 s3 s4 s5 s6 s7 s8 s9 : AssetReader} {typ name : String}
    {bs tf nv cc : Int} {vc ix mf : Option Int}
    (h1 : read_null_terminated_string s = Except.ok (typ, s1))
    (h2 : read_null_terminated_string s1 = Except.ok (name, s2))
    (h3 : read_i32 s2 = Except.ok (bs, s3))
    (h4 : (if version == 2 then mbind read_i32 fun v => mpure (some v)
        else mpure none) s3 = Except.ok (vc, s4))
    (h5 : (if version != 3 then mbind read_i32 fun v => mpure (some v)
        else mpure none) s4 = Except.ok (ix, s5))
    (h6 : read_i32 s5 = Except.ok (tf, s6))
    (h7 : read_i32 s6 = Except.ok (nv, s7))
    (h8 : (if version != 3 then mbind read_i32 fun v => mpure (some v)
        else mpure none) s7 = Except.ok (mf, s8))
    (h9 : read_i32 s8 = Except.ok (cc, s9)) :
    read_type_tree_go version (fuel + 1) ((level, count) :: rest) acc s =
      read_type_tree_go version fuel
        (if cc > 0 then
          (level, cc) :: (if count > 1 then (level, count - 1) :: rest else rest)
         else (if count > 1 then (level, count - 1) :: rest else rest))
        (acc ++
          [{ level := level, typ := some typ, name := some name, byte_size := bs,
             variable_count := vc, index := ix, type_flags := tf, version := nv,
             meta_flag := mf, type_str_offset := none, name_str_offset := none,
             ref_type_hash := none }]) s9 := by
  conv_lhs => rw [read_type_tree_go]
  simp only [bind_def, mbind_eq_of_ok h1, mbind_eq_of_ok h2, mbind_eq_of_ok h3,
    mbind_eq_of_ok h4, mbind_eq_of_ok h5, mbind_eq_of_ok h6, mbind_eq_of_ok h7,
    mbind_eq_of_ok h8, mbind_eq_of_ok h9]

/-- The node that both records of `c5data` decode to. -/
def c5node : TypeTreeNode :=
  { level := 0, typ := some "T", name := some "n", byte_size := 0,
    variable_count := none, index := some 0, type_flags := 0, version := 0,
    meta_flag := some 0, type_str_offset := none, name_str_offset := none,
    ref_type_hash := none }

def c5at (p : Nat) : AssetReader :=
  { data := c5data, pos := p, endianness := Endianness.big }

theorem c5run_eq :
    read_type_tree 17 (AssetReader.new c5data) = Except.ok ([c5node, c5node], c5at 56) := by
  have hstep : read_type_tree_go 17 57 [(0, 1)] [] (AssetReader.new c5data) =
      read_type_tree_go 17 56 [(0, 1)] [c5node] (c5at 28) := by
    refine Eq.trans (read_type_tree_go_step
      (rfl : read_null_terminated_string (AssetReader.new c5data) =
        Except.ok ("T", c5at 2))
      (rfl : read_null_terminated_string (c5at 2) = Except.ok ("n", c5at 4))
      (rfl : read_i32 (c5at 4) = Except.ok (0, c5at 8))
      (rfl : (if (17 : Nat) == 2 then mbind read_i32 fun v => mpure (some v)
        else mpure (none : Option Int)) (c5at 8) = Except.ok (none, c5at 8))
      (rfl : (if (17 : Nat) != 3 then mbind read_i32 fun v => mpure (some v)
        else mpure (none : Option Int)) (c5at 8) = Except.ok (some 0, c5at 12))
      (rfl : read_i32 (c5at 12) = Except.ok (0, c5at 16))
      (rfl : read_i32 (c5at 16) = Except.ok (0, c5at 20))
      (rfl : (if (17 : Nat) != 3 then mbind read_i32 fun v => mpure (some v)
        else mpure (none : Option Int)) (c5at 20) = Except.ok (some 0, c5at 24))
      (rfl : read_i32 (c5at 24) = Except.ok (1, c5at 28))) (by rfl)
  have htail : read_type_tree_go 17 56 [(0, 1)] [c5node] (c5at 28) =
      Except.ok ([c5node, c5node], c5at 56) := rfl
  show read_type_tree_go 17 (c5data.length + 1) [(0, 1)] [] (AssetReader.new c5data) = _
  have hlen : c5data.length + 1 = 57 := rfl
  rw [hlen, hstep, htail]

/-- Claim C5, code evaluated at the failing input: `read_type_tree` pushes
`(level, children_count)` without incrementing the level, so both the root
and its child are emitted at level 0, instead of the child being emitted
at level 1 as the claim (and spec 4.4.1) requires. -/
theorem C5_type_tree_child_level :
    (read_type_tree 17 (AssetReader.new c5data)).toOption.map
        (fun p => p.1.map (fun n => n.level)) = some [0, 0] ∧
      (([0, 0] : List Nat) == [0, 1]) = false := by
  rw [c5run_eq]
  exact ⟨rfl, rfl⟩

/-! ### Claim C7: the keyword-index section of sub-programs -/

theorem keyword_section_cases {asset : AssetInfo} {s s2 : AssetReader}
    {r : Option (List Nat) × Option (List Nat) × Option (List Nat)}
    (h : keyword_section asset s = Except.ok (r, s2)) :
    (keywordSplit asset.metadata.unity_version = true ∧
      ∃ g s1 sa l sb, read_u16_array s = Except.ok (g, s1) ∧
        align s1 = Except.ok ((), sa) ∧ read_u16_array sa = Except.ok (l, sb) ∧
        align sb = Except.ok ((), s2) ∧ r = (some g, some l, none)) ∨
    (keywordSplit asset.metadata.unity_version = false ∧
      ∃ k s1, read_u16_array s = Except.ok (k, s1) ∧ r = (none, none, some k) ∧
        (UnityVersion.le { major := 2017 } asset.metadata.unity_version = true →
          align s1 = Except.ok ((), s2)) ∧
        (UnityVersion.le { major := 2017 } asset.metadata.unity_version = false →
          s2 = s1)) := by
  unfold keyword_section at h
  simp only [bind_def] at h
  split at h
  · left
    refine ⟨by assumption, ?_⟩
    obtain ⟨g, s1, hg, h⟩ := of_mbind_ok h
    obtain ⟨u1, sa, ha, h⟩ := of_mbind_ok h
    cases u1
    obtain ⟨l, sb, hl, h⟩ := of_mbind_ok h
    obtain ⟨u2, sc, hb, h⟩ := of_mbind_ok h
    cases u2
    obtain ⟨hr, hs⟩ := mpure_ok.mp h
    subst hs
    exact ⟨g, s1, sa, l, sb, hg, ha, hl, hb, hr⟩
  · right
    rename_i hcond
    refine ⟨by simpa using hcond, ?_⟩
    obtain ⟨k, s1, hk, h⟩ := of_mbind_ok h
    obtain ⟨u1, sa, hite, h⟩ := of_mbind_ok h
    cases u1
    obtain ⟨hr, hs⟩ := mpure_ok.mp h
    subst hs
    split at hite
    · rename_i hc
      refine ⟨k, s1, hk, hr, fun _ => hite, fun hf => ?_⟩
      have hc2 : UnityVersion.le { major := 2017 } asset.metadata.unity_version = true := hc
      rw [hf] at hc2
      cases hc2
    · rename_i hc
      obtain ⟨_, hs1⟩ := mpure_ok.mp hite
      refine ⟨k, s1, hk, hr, fun ht => ?_, fun _ => hs1⟩
      have hc2 : ¬ UnityVersion.le { major := 2017 } asset.metadata.unity_version = true := hc
      exact absurd ht hc2

/-- Claim C7: when decoding a sub-program, for engine versions in
`[2019, 2021.2)` the decoder reads a `u16` global keyword-index array,
aligns, reads a `u16` local keyword-index array and aligns; otherwise it
reads a single `u16` keyword-index array and aligns exactly when the
engine version is at least 2017 — and the decoded sub-program's
keyword-index fields record which branch ran. -/
theorem C7_subprogram_keyword_indices :
    (∀ (asset : AssetInfo) (s : AssetReader)
        (r : Option (List Nat) × Option (List Nat) × Option (List Nat)) (s2 : AssetReader),
      keywordSplit asset.metadata.unity_version = true →
      keyword_section asset s = Except.ok (r, s2) →
      ∃ g s1 sa l sb, read_u16_array s = Except.ok (g, s1) ∧
        align s1 = Except.ok ((), sa) ∧ read_u16_array sa = Except.ok (l, sb) ∧
        align sb = Except.ok ((), s2) ∧ r = (some g, some l, none)) ∧
      (∀ (asset : AssetInfo) (s : AssetReader)
          (r : Option (List Nat) × Option (List Nat) × Option (List Nat)) (s2 : AssetReader),
        keywordSplit asset.metadata.unity_version = false →
        keyword_section asset s = Except.ok (r, s2) →
        ∃ k s1, read_u16_array s = Except.ok (k, s1) ∧ r = (none, none, some k) ∧
          (UnityVersion.le { major := 2017 } asset.metadata.unity_version = true →
            align s1 = Except.ok ((), s2)) ∧
          (UnityVersion.le { major := 2017 } asset.metadata.unity_version = false →
            s2 = s1)) ∧
      (∀ (asset : AssetInfo) (s : AssetReader) (sp : UnityShaderSerializedSubProgram)
          (s2 : AssetReader),
        UnityShaderSerializedSubProgram.deserialize asset s = Except.ok (sp, s2) →
        (keywordSplit asset.metadata.unity_version = true →
          sp.global_keyword_indices.isSome = true ∧
            sp.local_keyword_indices.isSome = true ∧ sp.keyword_indices = none) ∧
          (keywordSplit asset.metadata.unity_version = false →
            sp.global_keyword_indices = none ∧ sp.local_keyword_indices = none ∧
              sp.keyword_indices.isSome = true)) := by
  refine ⟨?_, ?_, ?_⟩
  · intro asset s r s2 hc h
    rcases keyword_section_cases h with ⟨_, hx⟩ | ⟨hf, _⟩
    · exact hx
    · rw [hc] at hf
      cases hf
  · intro asset s r s2 hc h
    rcases keyword_section_cases h with ⟨ht, _⟩ | ⟨_, hx⟩
    · rw [hc] at ht
      cases ht
    · exact hx
  · intro asset s sp s2 h
    unfold UnityShaderSerializedSubProgram.deserialize at h
    simp only [bind_def] at h
    obtain ⟨bi, sa, _, h⟩ := of_mbind_ok h
    obtain ⟨ch, sb, _, h⟩ := of_mbind_ok h
    obtain ⟨r, sc, hks, h⟩ := of_mbind_ok h
    obtain ⟨g0, l0, k0⟩ := r
    obtain ⟨tier, sd, _, h⟩ := of_mbind_ok h
    obtain ⟨gpv, se, _, h⟩ := of_mbind_ok h
    obtain ⟨gpt, sf, _, h⟩ := of_mbind_ok h
    obtain ⟨u, sg, _, h⟩ := of_mbind_ok h
    obtain ⟨params, sh, _, h⟩ := of_mbind_ok h
    obtain ⟨reqs, si, _, h⟩ := of_mbind_ok h
    obtain ⟨hsp, _⟩ := mpure_ok.mp h
    subst hsp
    rcases keyword_section_cases hks with ⟨ht, _, _, _, _, _, _, _, _, _, hr⟩ |
      ⟨hf, _, _, _, hr, _⟩
    · injection hr with hg hr
      injection hr with hl hk
      subst hg
      subst hl
      subst hk
      constructor
      · intro _
        exact ⟨rfl, rfl, rfl⟩
      · intro hcf
        rw [ht] at hcf
        cases hcf
    · injection hr with hg hr
      injection hr with hl hk
      subst hg
      subst hl
      subst hk
      constructor
      · intro hct
        rw [hf] at hct
        cases hct
      · intro _
        exact ⟨rfl, rfl, rfl⟩

/-! ### C7 witness data -/

def c7uv : UnityVersion := { major := 2019 }

def c7md : AssetMetadata :=
  { unity_version := c7uv, target_platform := 0, enable_type_tree := false, types := [] }

def c7asset : AssetInfo :=
  { header := c1hdr0, metadata := c7md, objects := [], script_types := [],
    externals := [], ref_types := [], user_information := "" }

/-- Keyword-section bytes: global `[5]`, padding, empty local array. -/
def c7data : List Nat := [0, 0, 0, 1] ++ [0, 5] ++ [0, 0] ++ [0, 0, 0, 0]

def c7kwEnd : AssetReader :=
  { data := c7data, pos := 12, endianness := Endianness.big }

/-- A complete sub-program record for engine 2019. -/
def c7subdata : List Nat :=
  [0, 0, 0, 0] ++ [0, 0, 0, 0] ++ [0, 0, 0, 0] ++ [0, 0, 0, 1] ++ [0, 5] ++ [0, 0] ++
    [0, 0, 0, 0] ++ [7] ++ [4] ++ [0, 0] ++ List.replicate 28 0 ++ [0, 0, 0, 0] ++
    [0, 0, 0, 9]

/-- Intermediate reader state over `c7subdata` at position `p`. -/
def c7s (p : Nat) : AssetReader :=
  { data := c7subdata, pos := p, endianness := Endianness.big }

def c7params : UnityShaderSerializedProgramParameters :=
  { vector_params := [], matrix_params := [], texture_params := [], buffer_params := [],
    constant_buffers := [], constant_buffer_bindings := [], uav_params := [],
    samplers := some [] }

def c7sub : UnityShaderSerializedSubProgram :=
  { blob_index := 0, channels := { channels := [], source_map := 0 },
    global_keyword_indices := some [5], local_keyword_indices := some [],
    keyword_indices := none, shader_hardware_tier := 7,
    gpu_program_type := UnityShaderGpuProgramType.GLES3,
    parameters := some c7params, shader_requirements := some 9 }

/-- `UnityShaderSerializedSubProgram.deserialize` on `c7subdata`,
assembled from per-stage evaluations. -/
theorem c7sub_eq :
    UnityShaderSerializedSubProgram.deserialize c7asset (AssetReader.new c7subdata) =
      Except.ok (c7sub, c7s 64) := by
  have e1 : read_u32 (AssetReader.new c7subdata) = Except.ok (0, c7s 4) := rfl
  have e2 : UnityShaderParserBindChannels.deserialize c7asset (c7s 4) =
      Except.ok ({ channels := [], source_map := 0 }, c7s 12) := rfl
  have e3 : keyword_section c7asset (c7s 12) =
      Except.ok ((some [5], some [], none), c7s 24) := rfl
  have e4 : read_u8 (c7s 24) = Except.ok (7, c7s 25) := rfl
  have e5 : read_u8 (c7s 25) = Except.ok (4, c7s 26) := rfl
  have e6 : liftPanicOpt (get_gpu_program_type 4) "unrecognized GPU program type"
      (c7s 26) = Except.ok (UnityShaderGpuProgramType.GLES3, c7s 26) := rfl
  have e7 : align (c7s 26) = Except.ok ((), c7s 28) := rfl
  have e8 : UnityShaderSerializedProgramParameters.deserialize c7asset (c7s 28) =
      Except.ok (c7params, c7s 60) := by
    have p1 : deserialize_array (UnityShaderVectorParameter.deserialize c7asset)
        (c7s 28) = Except.ok ([], c7s 32) := rfl
    have p2 : deserialize_array (UnityShaderMatrixParameter.deserialize c7asset)
        (c7s 32) = Except.ok ([], c7s 36) := rfl
    have p3 : deserialize_array (UnityShaderTextureParameter.deserialize c7asset)
        (c7s 36) = Except.ok ([], c7s 40) := rfl
    have p4 : deserialize_array (UnityShaderBufferBinding.deserialize c7asset)
        (c7s 40) = Except.ok ([], c7s 44) := rfl
    have p5 : deserialize_array (UnityShaderConstantBuffer.deserialize c7asset)
        (c7s 44) = Except.ok ([], c7s 48) := rfl
    have p6 : deserialize_array (UnityShaderBufferBinding.deserialize c7asset)
        (c7s 48) = Except.ok ([], c7s 52) := rfl
    have p7 : deserialize_array (UnityShaderUAVParameter.deserialize c7asset)
        (c7s 52) = Except.ok ([], c7s 56) := rfl
    unfold UnityShaderSerializedProgramParameters.deserialize
    simp only [bind_def, mbind_eq_of_ok p1, mbind_eq_of_ok p2, mbind_eq_of_ok p3,
      mbind_eq_of_ok p4, mbind_eq_of_ok p5, mbind_eq_of_ok p6, mbind_eq_of_ok p7]
    rfl
  have e9 : (if UnityVersion.le { major := 2017, minor := 2 }
        c7asset.metadata.unity_version then
      (if UnityVersion.le { major := 2021 } c7asset.metadata.unity_version then
        mbind read_i64 fun v => mpure (some v)
      else mbind read_i32 fun v => mpure (some v))
    else mpure none) (c7s 60) = Except.ok (some 9, c7s 64) := rfl
  unfold UnityShaderSerializedSubProgram.deserialize
  simp only [bind_def, mbind_eq_of_ok e1, mbind_eq_of_ok e2, mbind_eq_of_ok e3,
    mbind_eq_of_ok e4, mbind_eq_of_ok e5, mbind_eq_of_ok e6, mbind_eq_of_ok e7,
    mbind_eq_of_ok e8, mbind_eq_of_ok e9]
  rfl

/-- Witness for C7: at engine version 2019 the keyword section on
`c7data` decomposes into the two `u16` arrays with their alignments, and a
full sub-program decoded from `c7subdata` carries global/local keyword
indices and no plain keyword-index array. -/
theorem C7_witness :
    (∃ g s1 sa l sb, read_u16_array (AssetReader.new c7data) = Except.ok (g, s1) ∧
        align s1 = Except.ok ((), sa) ∧ read_u16_array sa = Except.ok (l, sb) ∧
        align sb = Except.ok ((), c7kwEnd) ∧
        ((some [5], some [], (none : Option (List Nat))) :
          Option (List Nat) × Option (List Nat) × Option (List Nat)) =
            (some g, some l, none)) ∧
      (c7sub.global_keyword_indices.isSome = true ∧
        c7sub.local_keyword_indices.isSome = true ∧ c7sub.keyword_indices = none) := by
  constructor
  · exact C7_subprogram_keyword_indices.1 c7asset (AssetReader.new c7data)
      (some [5], some [], none) c7kwEnd rfl rfl
  · exact (C7_subprogram_keyword_indices.2.2 c7asset (AssetReader.new c7subdata)
      c7sub (c7s 64) c7sub_eq).1 rfl

/-! ### Claim C8: determinism -/

/-- Claim C8: decoding is deterministic — the decoders are functions of
the byte buffer (and asset context) alone, so equal inputs produce equal
outcomes for `read_asset_info`, Material decoding and Shader decoding. -/
theorem C8_decoding_deterministic :
    ∀ (d1 d2 : List Nat) (a1 a2 : AssetInfo), d1 = d2 → a1 = a2 →
      read_asset_info (AssetReader.new d1) = read_asset_info (AssetReader.new d2) ∧
        UnityMaterial.from_bytes d1 a1 = UnityMaterial.from_bytes d2 a2 ∧
        UnityShader.from_bytes d1 a1 = UnityShader.from_bytes d2 a2 := by
  intro d1 d2 a1 a2 h1 h2
  subst h1
  subst h2
  exact ⟨rfl, rfl, rfl⟩

/-- Witness for C8 at the empty buffer and the `c1data` asset context. -/
theorem C8_witness :
    read_asset_info (AssetReader.new []) = read_asset_info (AssetReader.new []) ∧
      UnityMaterial.from_bytes [] c1asset = UnityMaterial.from_bytes [] c1asset ∧
      UnityShader.from_bytes [] c1asset = UnityShader.from_bytes [] c1asset :=
  C8_decoding_deterministic [] [] c1asset c1asset rfl rfl

/-! ### Claim C10: the property-sheet texture accessor -/

theorem OMap.deserialize_length {κ ν : Type} {dk : M κ} {dv : M ν}
    {s s2 : AssetReader} {m : OMap κ ν}
    (h : OMap.deserialize dk dv s = Except.ok (m, s2)) :
    m.keys.length = m.vals.length := by
  unfold OMap.deserialize at h
  simp only [bind_def] at h
  obtain ⟨n, s1, _, h⟩ := of_mbind_ok h
  obtain ⟨pairs, s3, _, h⟩ := of_mbind_ok h
  obtain ⟨hm, _⟩ := mpure_ok.mp h
  subst hm
  simp

/-- Claim C10: for every property sheet produced by the decoder and every
index below `get_tex_env_count`, `get_tex_env` returns `Some` of the
`idx`-th decoded texture environment (no panic); and on any input on which
`get_tex_env` returns at all, the returned value is never `None`. -/
theorem C10_get_tex_env_total :
    (∀ (asset : AssetInfo) (s : AssetReader) (sheet : UnityPropertySheet)
        (s2 : AssetReader),
      UnityPropertySheet.deserialize asset s = Except.ok (sheet, s2) →
      ∀ idx, idx < sheet.get_tex_env_count →
        ∃ t, sheet.tex_envs.vals.get? idx = some t ∧
          sheet.get_tex_env idx = some (some t)) ∧
      (∀ (sheet : UnityPropertySheet) (idx : Nat) (r : Option UnityTexEnv),
        sheet.get_tex_env idx = some r → r.isSome = true) := by
  constructor
  · intro asset s sheet s2 h idx hidx
    unfold UnityPropertySheet.deserialize at h
    simp only [bind_def] at h
    obtain ⟨te, s1, hte, h⟩ := of_mbind_ok h
    obtain ⟨fl, sa, _, h⟩ := of_mbind_ok h
    obtain ⟨co, sb, _, h⟩ := of_mbind_ok h
    obtain ⟨hsh, _⟩ := mpure_ok.mp h
    subst hsh
    have hlen := OMap.deserialize_length hte
    have hidx2 : idx < te.keys.length := hidx
    have hvlen : idx < te.vals.length := by omega
    cases hq : te.vals.get? idx with
    | none =>
      exfalso
      have := List.get?_eq_none.mp hq
      omega
    | some t =>
      refine ⟨t, rfl, ?_⟩
      show (match te.vals.get? idx with
        | some t => some (some t)
        | none => none) = some (some t)
      rw [hq]
  · intro sheet idx r h
    unfold UnityPropertySheet.get_tex_env at h
    cases hq : sheet.tex_envs.vals.get? idx <;> rw [hq] at h
    · cases h
    · injection h with h2
      rw [← h2]
      rfl

/-! ### C10 witness data -/

/-- A property sheet with one texture environment keyed `"A"`, then empty
float and color maps. -/
def c10data : List Nat :=
  [0, 0, 0, 1] ++ [0, 0, 0, 1] ++ [65] ++ [0, 0, 0] ++ [0, 0, 0, 0] ++
    List.replicate 8 0 ++ List.replicate 8 0 ++ List.replicate 8 0 ++
    [0, 0, 0, 0] ++ [0, 0, 0, 0]

def c10te : UnityTexEnv :=
  { texture := { file_id := 0, path_id := 0 }, scale := { x := 0, y := 0 },
    offset := { x := 0, y := 0 } }

def c10sheet : UnityPropertySheet :=
  { tex_envs := { keys := ["A"], vals := [c10te] }, floats := { keys := [], vals := [] },
    colors := { keys := [], vals := [] } }

def c10end : AssetReader :=
  { data := c10data, pos := 48, endianness := Endianness.big }

/-- Witness for C10: on `c10data` the decoded sheet has one texture
environment, index 0 retrieves it as `Some`, and a returned value is
`isSome`. -/
theorem C10_witness :
    (∃ t, c10sheet.tex_envs.vals.get? 0 = some t ∧
        c10sheet.get_tex_env 0 = some (some t)) ∧
      (some c10te).isSome = true := by
  constructor
  · exact C10_get_tex_env_total.1 c1asset (AssetReader.new c10data) c10sheet c10end
      rfl 0 (by decide)
  · exact C10_get_tex_env_total.2 c10sheet 0 (some c10te) rfl

end Noclip
